import Mathlib

/-!
Shallow embedding of the NullModel fake-LLM API server (JavaScript) together
with theorems checking its natural-language specification against the code.

Conventions of the embedding:
* `Math.random()` draws are made explicit inputs (a rational `roll`/`u` in
  `[0, 1)`, or a natural-number index for content selection), so every
  function is deterministic in its arguments.
* `res.destroyed` polling is modelled by a natural number `death`: the
  poll with (zero-based) sequence number `k` inside a request reports the
  connection as destroyed exactly when `death ≤ k`.  A `death` at least the
  total number of polls models a stream that runs to completion.
* Emission is modelled as a list of actions: `sleep` markers (one per
  awaited latency-model delay) interleaved with the written frames, in the
  order the JavaScript writes them.
* Randomly generated identifiers (`generateId`), timestamps, and the
  free-text `message` fields of the canned chaos bodies are elided; every
  structured, discriminating field is kept.
* The dynamic-key object reads `personas[name]` and
  `errors[type]?.[provider]` are modelled twice: own-property tables
  (`personasLookup`, `errorsTable`), which the handlers use and which
  agree with JS at catalog keys, and a full JS-lookup model
  (`jsGetProp`, `getPersonaJS`, `getChaosResponseJS`) that also accounts
  for members inherited from `Object.prototype`.
-/

namespace NullModel

/-- JavaScript `Math.round` on rationals: floor of `x + 1/2`. -/
def mathRound (x : ℚ) : ℤ := ⌊x + 1 / 2⌋

/-! ## Token segmenter (src/utils/streaming.js, `tokenize`)

The JS splitter runs `/(\s+|[^\s\w]|\w+)/g` over the input with `exec`:
every character matches one alternative, the alternatives are greedy, and
each match starts where the previous one ended, so the scan emits a maximal
whitespace run, a maximal word-character run, or a single other character
at each step.  The loop below is that scan; since every step consumes at
least one character, `s.length` steps of fuel always suffice. -/

/-- The JS regex class `\w` (no `u` flag): `[A-Za-z0-9_]`. -/
def isWordChar (c : Char) : Bool := c.isAlpha || c.isDigit || c == '_'

/-- The JS regex class `\s`: ECMAScript WhiteSpace and LineTerminator code
points. -/
def isSpaceChar (c : Char) : Bool :=
  c == ' ' || c == '\t' || c == '\n' || c == '\r' ||
  c.val == 0x0b || c.val == 0x0c || c.val == 0xa0 || c.val == 0x1680 ||
  (0x2000 ≤ c.val && c.val ≤ 0x200a) || c.val == 0x2028 || c.val == 0x2029 ||
  c.val == 0x202f || c.val == 0x205f || c.val == 0x3000 || c.val == 0xfeff

/-- One `exec` step per fuel unit: emit the maximal run (or single other
character) starting at the head, continue on the rest. -/
def tokenizeFuel : ℕ → List Char → List (List Char)
  | 0, _ => []
  | _, [] => []
  | fuel + 1, c :: rest =>
    if isSpaceChar c then
      (c :: rest.takeWhile isSpaceChar) :: tokenizeFuel fuel (rest.dropWhile isSpaceChar)
    else if isWordChar c then
      (c :: rest.takeWhile isWordChar) :: tokenizeFuel fuel (rest.dropWhile isWordChar)
    else
      [c] :: tokenizeFuel fuel rest

/-- `tokenize` from src/utils/streaming.js on the character list of the
input. -/
def tokenize (s : List Char) : List (List Char) := tokenizeFuel s.length s

/-- `tokenize` at the `String` level, as the providers call it. -/
def tokenizeStr (s : String) : List String := (tokenize s.data).map String.mk

/-- `estimateTokens` from src/utils/streaming.js: `Math.ceil(length / 4)`. -/
def estimateTokens (text : String) : ℕ := (text.length + 3) / 4

/-- `chunkString` from the OpenAI and Anthropic providers: successive
slices of `size` characters.  The JS `for` loop advances by `size ≥ 1` per
iteration (the call sites use 8 and 12), so `s.length` fuel suffices. -/
def chunkStringFuel : ℕ → List Char → ℕ → List (List Char)
  | 0, _, _ => []
  | _, [], _ => []
  | fuel + 1, c :: rest, size => (c :: rest).take size :: chunkStringFuel fuel ((c :: rest).drop size) size

/-- `chunkString(str, size)` on character lists. -/
def chunkString (s : List Char) (size : ℕ) : List (List Char) := chunkStringFuel s.length s size

/-- `chunkString` at the `String` level. -/
def chunkStringS (s : String) (size : ℕ) : List String := (chunkString s.data size).map String.mk

/-! ## Fault Injection Engine (src/utils/chaos.js) -/

/-- The three outcomes `shouldTriggerChaos` can report (absence of chaos is
`none`). -/
inductive ChaosType
  | rate_limit
  | server_error
  | slowdown
deriving DecidableEq, Repr

/-- The `chaos` section of the configuration (src/config.js defaults:
enabled `false`, errorRate 0.05, slowdownRate 0.1, slowdownMultiplier 5,
rateLimitRate 0.02). -/
structure ChaosSettings where
  enabled : Bool
  rateLimitRate : ℚ
  errorRate : ℚ
  slowdownRate : ℚ
  slowdownMultiplier : ℚ
deriving DecidableEq, Repr

/-- `shouldTriggerChaos` with the single `Math.random()` draw made the
explicit argument `roll`. -/
def shouldTriggerChaos (chaos : ChaosSettings) (roll : ℚ) : Option ChaosType :=
  if !chaos.enabled then none
  else if roll < chaos.rateLimitRate then some .rate_limit
  else if roll < chaos.rateLimitRate + chaos.errorRate then some .server_error
  else if roll < chaos.rateLimitRate + chaos.errorRate + chaos.slowdownRate then some .slowdown
  else none

/-- The chaos error-type key strings used by the server when rendering a
fault. -/
def chaosTypeName : ChaosType → String
  | .rate_limit => "rate_limit"
  | .server_error => "server_error"
  | .slowdown => "slowdown"

/-- Structured content of a canned fault body.  The free-text `message`
fields of src/utils/chaos.js are elided; the discriminating fields
(OpenAI `error.type/param/code`, Anthropic `error.type`, Gemini
`error.code/status`) are kept. -/
inductive FaultBody
  | openaiErr (errType : String) (param : Option String) (code : Option String)
  | anthropicErr (errType : String)
  | geminiErr (code : ℕ) (statusTag : String)
deriving DecidableEq, Repr

/-- One entry of the `errors` table in `getChaosResponse`: HTTP status,
body, and extra headers (empty when the JS entry has no `headers`). -/
structure FaultPayload where
  status : ℕ
  body : FaultBody
  headers : List (String × String)
deriving DecidableEq, Repr

/-- The `errors.server_error.openai` entry, the payload of last resort. -/
def openaiServerErrorPayload : FaultPayload :=
  ⟨500, .openaiErr "server_error" none none, []⟩

/-- The own entries of the nested `errors` object literal of
`getChaosResponse`: `errorsTable t p` is `errors[t]?.[p]` restricted to
own properties (`none` when either own key is missing; reads that hit
members inherited from `Object.prototype` are modelled in
`getChaosResponseJS` below). -/
def errorsTable (t provider : String) : Option FaultPayload :=
  if t = "rate_limit" then
    if provider = "openai" then
      some ⟨429, .openaiErr "tokens" none (some "rate_limit_exceeded"),
        [("retry-after", "2"), ("x-ratelimit-remaining-tokens", "468")]⟩
    else if provider = "anthropic" then
      some ⟨429, .anthropicErr "rate_limit_error", [("retry-after", "2")]⟩
    else if provider = "gemini" then
      some ⟨429, .geminiErr 429 "RESOURCE_EXHAUSTED", [("retry-after", "2")]⟩
    else none
  else if t = "server_error" then
    if provider = "openai" then some openaiServerErrorPayload
    else if provider = "anthropic" then some ⟨500, .anthropicErr "api_error", []⟩
    else if provider = "gemini" then some ⟨500, .geminiErr 500 "INTERNAL", []⟩
    else none
  else if t = "context_length" then
    if provider = "openai" then
      some ⟨400, .openaiErr "invalid_request_error" (some "messages") (some "context_length_exceeded"), []⟩
    else if provider = "anthropic" then some ⟨400, .anthropicErr "invalid_request_error", []⟩
    else if provider = "gemini" then some ⟨400, .geminiErr 400 "INVALID_ARGUMENT", []⟩
    else none
  else if t = "timeout" then
    if provider = "openai" then some ⟨408, .openaiErr "timeout_error" none (some "timeout"), []⟩
    else if provider = "anthropic" then some ⟨408, .anthropicErr "timeout_error", []⟩
    else if provider = "gemini" then some ⟨504, .geminiErr 504 "DEADLINE_EXCEEDED", []⟩
    else none
  else none

/-- `getChaosResponse(type, provider)`:
`errors[type]?.[provider] || errors.server_error[provider] ||
errors.server_error.openai` (every own entry is an object, hence truthy),
restricted to type/provider strings that do not collide with inherited
`Object.prototype` members; the server calls it at the own keys
rate_limit/server_error and openai only.  `getChaosResponseJS` below is
the full JS-lookup semantics. -/
def getChaosResponse (t provider : String) : FaultPayload :=
  match errorsTable t provider with
  | some r => r
  | none =>
    match errorsTable "server_error" provider with
    | some r => r
    | none => openaiServerErrorPayload

/-- The providers the `errors` table knows. -/
def knownProvider (p : String) : Bool := p = "openai" || p = "anthropic" || p = "gemini"

/-! ## Latency model (src/utils/streaming.js) -/

/-- The `latency` section of the configuration (defaults: firstToken 300,
perToken 30, variance 0.3). -/
structure LatencySettings where
  firstToken : ℚ
  perToken : ℚ
  variance : ℚ
deriving DecidableEq, Repr

/-- The jitter factor `1 + (Math.random() * 2 - 1) * variance`, with the
draw the explicit argument `u`. -/
def jitterFactor (variance u : ℚ) : ℚ := 1 + (u * 2 - 1) * variance

/-- The per-token delay before rounding and flooring:
`base * jitter` with `base = latency.perToken`. -/
def rawPerTokenDelay (latency : LatencySettings) (u : ℚ) : ℚ :=
  latency.perToken * jitterFactor latency.variance u

/-- `getTokenDelay`: `Math.max(5, Math.round(base * jitter))`. -/
def getTokenDelay (latency : LatencySettings) (u : ℚ) : ℤ :=
  max 5 (mathRound (rawPerTokenDelay latency u))

/-- The first-token delay before rounding and flooring:
`base * jitter` with `base = latency.firstToken`. -/
def rawFirstTokenDelay (latency : LatencySettings) (u : ℚ) : ℚ :=
  latency.firstToken * jitterFactor latency.variance u

/-- `getFirstTokenDelay`: `Math.max(50, Math.round(base * jitter))`. -/
def getFirstTokenDelay (latency : LatencySettings) (u : ℚ) : ℤ :=
  max 50 (mathRound (rawFirstTokenDelay latency u))

/-! ## Persona Catalog (src/personas/index.js)

The response texts below are the catalog texts byte for byte (braces,
apostrophes and backticks appear as character escapes).  A tool-call
variant field `arguments` (an object) is carried as its `JSON.stringify`
serialization, which is exactly the string both streaming emitters chunk
and the non-streaming emitters embed. -/

-- responses of persona balanced
def balancedResponses : List String := [
  "That\x27s a great question. Let me break it down.\n\nThe core idea is relatively simple: you\x27re building a pipeline that transforms raw input into structured output. The tricky part is handling edge cases — malformed data, timeouts, and partial failures.\n\nI\x27d recommend starting with the happy path, getting that solid, then layering in error handling incrementally. Don\x27t try to boil the ocean on v1.",
  "Here\x27s what I\x27d suggest:\n\nFirst, separate your concerns. The data fetching layer shouldn\x27t know anything about how the UI renders. Second, make your state transitions explicit — don\x27t let things happen implicitly.\n\nThe biggest mistake I see is coupling the loading state to the data state. Keep them independent, and your UI will be much more predictable.",
  "There are a few ways to approach this, each with tradeoffs.\n\nThe simplest approach is a direct API call on each interaction. Low complexity, but you\x27ll hit latency issues at scale. The more robust approach is to batch requests and process them async, but that adds complexity to your state management.\n\nFor most cases, I\x27d start simple and optimize later. Premature optimization is still the root of all evil."]

-- responses of persona verbose
def verboseResponses : List String := [
  "This is a really important topic, and I want to make sure I give you a comprehensive answer.\n\n## Background\n\nTo understand the current state of things, we need to go back to the fundamentals. The architecture you\x27re describing evolved from earlier patterns in distributed systems, specifically the idea of message-passing between loosely coupled services.\n\nThe key insight was that by decoupling producers from consumers, you gain flexibility in how you scale, deploy, and recover from failures. This isn\x27t a new idea — it dates back to the early days of Unix pipes — but the modern implementation looks quite different.\n\n## The Current Landscape\n\nToday, you have several options:\n\n1. **Event-driven architecture** — Services emit events, other services react. Great for loose coupling, but debugging can be painful because the flow isn\x27t linear.\n\n2. **Request-response with queues** — More traditional, easier to reason about, but you lose some of the flexibility of pure event-driven systems.\n\n3. **Hybrid approaches** — Most production systems end up here. Synchronous for the critical path, async for everything else.\n\n## My Recommendation\n\nGiven what you\x27ve described, I\x27d lean toward option 3. Here\x27s why:\n\n- Your latency requirements on the critical path suggest you need synchronous responses\n- But your analytics and logging pipeline is a perfect candidate for async processing\n- The hybrid approach lets you optimize each path independently\n\nThe implementation would look something like this: your API gateway handles the synchronous request-response cycle, and after returning the response to the client, it drops a message onto a queue for downstream processing. This gives you the best of both worlds — low latency for the user, and decoupled processing for everything else.\n\n## Common Pitfalls\n\nA few things to watch out for:\n\n- **Don\x27t forget about backpressure.** If your async consumers can\x27t keep up, your queues will grow unbounded. Set up dead-letter queues and alerting from day one.\n- **Idempotency is non-negotiable.** Messages will be delivered more than once. Design your consumers to handle that gracefully.\n- **Observability first.** In a distributed system, the ability to trace a request across services is critical. Invest in this early.\n\nI know this is a lot, but these fundamentals will save you significant pain down the line. Happy to dive deeper into any specific area."]

-- responses of persona terse
def terseResponses : List String := [
  "Yes, that\x27s correct.",
  "No. Use a \u0060Map\u0060 instead.",
  "42.",
  "Try \u0060JSON.parse()\u0060 with a try-catch wrapper.",
  "That\x27s a bug, not a feature.",
  "Correct."]

-- responses of persona code
def codeResponses : List String := [
  "Here\x27s a clean implementation:\n\n\u0060\u0060\u0060typescript\ninterface StreamOptions \x7b\n  onToken: (token: string) => void;\n  onComplete: () => void;\n  onError: (error: Error) => void;\n  signal?: AbortSignal;\n\x7d\n\nasync function streamCompletion(\n  prompt: string,\n  options: StreamOptions\n): Promise<void> \x7b\n  const \x7b onToken, onComplete, onError, signal \x7d = options;\n\n  try \x7b\n    const response = await fetch(\x27/api/chat\x27, \x7b\n      method: \x27POST\x27,\n      headers: \x7b \x27Content-Type\x27: \x27application/json\x27 \x7d,\n      body: JSON.stringify(\x7b prompt \x7d),\n      signal,\n    \x7d);\n\n    if (!response.ok) \x7b\n      throw new Error(\u0060HTTP $\x7bresponse.status\x7d\u0060);\n    \x7d\n\n    const reader = response.body?.getReader();\n    if (!reader) throw new Error(\x27No reader available\x27);\n\n    const decoder = new TextDecoder();\n\n    while (true) \x7b\n      const \x7b done, value \x7d = await reader.read();\n      if (done) break;\n\n      const chunk = decoder.decode(value, \x7b stream: true \x7d);\n      const lines = chunk.split(\x27\\n\x27).filter(Boolean);\n\n      for (const line of lines) \x7b\n        if (line.startsWith(\x27data: \x27)) \x7b\n          const data = line.slice(6);\n          if (data === \x27[DONE]\x27) \x7b\n            onComplete();\n            return;\n          \x7d\n          const parsed = JSON.parse(data);\n          const token = parsed.choices?.[0]?.delta?.content ?? \x27\x27;\n          if (token) onToken(token);\n        \x7d\n      \x7d\n    \x7d\n\n    onComplete();\n  \x7d catch (err) \x7b\n    if (err instanceof Error) onError(err);\n  \x7d\n\x7d\n\u0060\u0060\u0060\n\nKey things: the \u0060AbortSignal\u0060 support lets you wire up a stop button, and the chunked line parsing handles the SSE format correctly even when chunks split across lines.",
  "Quick solution:\n\n\u0060\u0060\u0060javascript\nconst retry = async (fn, retries = 3, delay = 1000) => \x7b\n  for (let i = 0; i < retries; i++) \x7b\n    try \x7b\n      return await fn();\n    \x7d catch (err) \x7b\n      if (i === retries - 1) throw err;\n      await new Promise(r => setTimeout(r, delay * Math.pow(2, i)));\n    \x7d\n  \x7d\n\x7d;\n\n// Usage\nconst result = await retry(() => callLLM(prompt), 3, 500);\n\u0060\u0060\u0060\n\nExponential backoff built in. Adjust \u0060retries\u0060 and base \u0060delay\u0060 to taste."]

-- responses of persona markdown
def markdownResponses : List String := [
  "# Comparison: Streaming Approaches\n\nHere\x27s how the main approaches stack up:\n\n| Approach | Latency | Complexity | Browser Support |\n|----------|---------|------------|----------------|\n| **SSE** | Low | Low | ✅ All modern |\n| **WebSocket** | Very Low | Medium | ✅ All modern |\n| **Long Polling** | Medium | Low | ✅ Universal |\n| **WebTransport** | Very Low | High | ⚠️ Limited |\n\n## Key Takeaways\n\n- **For most AI apps, SSE is the right choice.** It\x27s simple, well-supported, and designed for exactly this use case (server → client streaming).\n- **WebSockets** make sense if you need bidirectional streaming (e.g., real-time collaboration on prompts).\n- **Long polling** is your fallback for hostile network environments.\n\n> **Pro tip:** Always implement a reconnection strategy. SSE has \u0060EventSource\u0060 built-in retry, but if you\x27re using \u0060fetch\u0060 with a \u0060ReadableStream\u0060, you\x27ll need to handle reconnection yourself.\n\n### The decision tree\n\n1. Do you need server → client only? → **SSE**\n2. Do you need bidirectional? → **WebSocket**\n3. Are you behind a corporate proxy that kills connections? → **Long Polling**\n4. Do you need multiplexed streams? → **WebTransport** *(but check browser support)*\n\n---\n\n*Note: All approaches benefit from \u0060gzip\u0060 or \u0060brotli\u0060 compression on the wire. Don\x27t skip this — it makes a bigger difference than you\x27d expect on token-heavy payloads.*"]

-- responses of persona tool_calls
def tool_callsResponses : List String := [
  "I\x27ll look up the current weather for you.",
  "Let me search the database for that information.",
  "I\x27ll create that document for you now."]

-- responses of persona error_prone
def error_proneResponses : List String := [
  "__ERROR__:rate_limit",
  "__ERROR__:context_length",
  "__ERROR__:server_error",
  "__ERROR__:timeout",
  "This response works fine though."]


/-- One entry of the `toolCalls` list of a persona: the function name and the
serialized arguments object. -/
structure ToolCallVariant where
  name : String
  argsJson : String
deriving DecidableEq, Repr

/-- The `toolCalls` list of the `tool_calls` persona. -/
def toolCallVariants : List ToolCallVariant := [
  ⟨"get_weather", "\x7b\"location\":\"San Francisco, CA\",\"unit\":\"celsius\"\x7d"⟩,
  ⟨"search_database", "\x7b\"query\":\"recent orders\",\"limit\":10,\"status\":\"pending\"\x7d"⟩,
  ⟨"create_document", "\x7b\"title\":\"Q4 Planning Notes\",\"content\":\"Initial draft for Q4 planning...\",\"tags\":[\"planning\",\"q4\",\"2025\"]\x7d"⟩]

/-- A persona definition: name, description, text variants, and the
optional tool-call variants (`none` models an absent `toolCalls` field). -/
structure Persona where
  name : String
  description : String
  responses : List String
  toolCalls : Option (List ToolCallVariant)
deriving DecidableEq, Repr

/-- The `balanced` persona. -/
def balancedPersona : Persona :=
  ⟨"balanced", "Medium-length, natural responses with mixed formatting", balancedResponses, none⟩

/-- The `verbose` persona. -/
def verbosePersona : Persona :=
  ⟨"verbose", "Long, detailed responses — tests scroll, rendering perf, and overflow", verboseResponses, none⟩

/-- The `terse` persona. -/
def tersePersona : Persona :=
  ⟨"terse", "Very short responses — tests compact UI states", terseResponses, none⟩

/-- The `code` persona. -/
def codePersona : Persona :=
  ⟨"code", "Code-heavy responses — tests syntax highlighting, code blocks", codeResponses, none⟩

/-- The `markdown` persona. -/
def markdownPersona : Persona :=
  ⟨"markdown", "Rich markdown with tables, lists, emphasis — tests full markdown rendering", markdownResponses, none⟩

/-- The `tool_calls` persona, the only one with tool-call variants. -/
def toolCallsPersona : Persona :=
  ⟨"tool_calls", "Responses with tool/function calls — tests tool call UI rendering", tool_callsResponses, some toolCallVariants⟩

/-- The `error_prone` persona, whose first four text variants are
`__ERROR__:<kind>` sentinels. -/
def errorPronePersona : Persona :=
  ⟨"error_prone", "Simulates various error states — tests error UI handling", error_proneResponses, none⟩

/-- The own properties of the `personas` object literal, as a lookup by
key. -/
def personasLookup (name : String) : Option Persona :=
  if name = "balanced" then some balancedPersona
  else if name = "verbose" then some verbosePersona
  else if name = "terse" then some tersePersona
  else if name = "code" then some codePersona
  else if name = "markdown" then some markdownPersona
  else if name = "tool_calls" then some toolCallsPersona
  else if name = "error_prone" then some errorPronePersona
  else none

/-- `getPersona(name)`: `personas[name] || personas.balanced`, restricted
to names that do not collide with inherited `Object.prototype` members
(the approved handler theorems use it at catalog keys only);
`getPersonaJS` below is the full JS-lookup semantics, and the two agree
away from `objectProtoKeys` (`getPersonaJS_eq_val`). -/
def getPersona (name : String) : Persona := (personasLookup name).getD balancedPersona

/-- `getResponse` with the random index made explicit (the JS draw
`Math.floor(Math.random() * p.responses.length)` is always in range;
`getD \"\"` stands for the out-of-range access that JS cannot reach). -/
def getResponseAt (p : Persona) (idx : ℕ) : String := (p.responses[idx]?).getD ""

/-- `getToolCall` with the random index made explicit: `none` when the
persona has no `toolCalls`; otherwise the pair of `p.toolCalls[idx]` and
`p.responses[idx] || p.responses[0]` (the JS `||` falls back when the
indexed response is missing or the empty string). -/
def getToolCallAt (p : Persona) (idx : ℕ) : Option (ToolCallVariant × String) :=
  match p.toolCalls with
  | none => none
  | some l =>
    some ((l[idx]?).getD ⟨"", ""⟩,
      match p.responses[idx]? with
      | some r => if r = "" then (p.responses[0]?).getD "" else r
      | none => (p.responses[0]?).getD "")

/-- `resolvePersona` as written identically in all three providers:
`body._persona || config.defaults.persona`, then `getPersona`.  `none`
models an absent `_persona` field; the JS `||` also sends an empty-string
hint to the configured default. -/
def resolvePersona (personaHint : Option String) (defaultPersona : String) : Persona :=
  match personaHint with
  | some h => if h = "" then getPersona defaultPersona else getPersona h
  | none => getPersona defaultPersona

/-! ## Usage accounting -/

/-- Usage counters of a response (prompt/input count, completion/output
count, total). -/
structure UsageCounts where
  promptTokens : ℕ
  completionTokens : ℕ
  totalTokens : ℕ
deriving DecidableEq, Repr

/-- Usage as the handlers build it: the total is the sum. -/
def mkUsage (promptTokens completionTokens : ℕ) : UsageCounts :=
  ⟨promptTokens, completionTokens, promptTokens + completionTokens⟩

/-! ## OpenAI-style Protocol Emitter (src/providers/openai.js) -/

/-- The `delta` object of a chat.completion.chunk: role, content, and the
pieces of `delta.tool_calls[0].function` (name / arguments fragment). -/
structure OAIDelta where
  role : Option String
  content : Option String
  toolCallName : Option String
  toolCallArgs : Option String
deriving DecidableEq, Repr

/-- The empty delta of a terminal chunk. -/
def emptyDelta : OAIDelta := ⟨none, none, none, none⟩

/-- One chat.completion.chunk document (constant id/model/created fields
elided). -/
structure OAIChunk where
  delta : OAIDelta
  finishReason : Option String
  usage : Option UsageCounts
deriving DecidableEq, Repr

/-- One action of the OpenAI streaming path: an awaited delay, a written
`data:` chunk line, or the literal closing `data: [DONE]` line. -/
inductive OAIAct
  | sleepFirst
  | sleepToken
  | chunk (c : OAIChunk)
  | doneLine
deriving DecidableEq, Repr

/-- The role-announcement chunk written first. -/
def roleChunk : OAIChunk := ⟨⟨some "assistant", some "", none, none⟩, none, none⟩

/-- A per-token content-delta chunk. -/
def contentChunk (t : String) : OAIChunk := ⟨⟨none, some t, none, none⟩, none, none⟩

/-- The text-mode terminal chunk: empty delta, finish_reason stop, usage
totals. -/
def finalTextChunk (usage : UsageCounts) : OAIChunk := ⟨emptyDelta, some "stop", some usage⟩

/-- The tool-call header chunk (random call id elided): function name and
empty arguments string. -/
def toolHeaderChunk (name : String) : OAIChunk := ⟨⟨none, none, some name, some ""⟩, none, none⟩

/-- One tool-argument fragment chunk. -/
def toolArgChunk (fragment : String) : OAIChunk := ⟨⟨none, none, none, some fragment⟩, none, none⟩

/-- The tool-mode terminal chunk: empty delta, finish_reason tool_calls,
no usage. -/
def finalToolChunk : OAIChunk := ⟨emptyDelta, some "tool_calls", none⟩

/-- The text loop of the OpenAI provider: per token, await the per-token
delay, poll `res.destroyed` (poll number `k`), and write the content
chunk; after the last token write the terminal chunk and the DONE line.
A positive poll returns from `sendStreaming` at once. -/
def oaiTextLoop (usage : UsageCounts) : List String → ℕ → ℕ → List OAIAct
  | [], _, _ => [.chunk (finalTextChunk usage), .doneLine]
  | t :: rest, k, death =>
    .sleepToken ::
      (if death ≤ k then []
       else .chunk (contentChunk t) :: oaiTextLoop usage rest (k + 1) death)

/-- `sendStreaming` of the OpenAI provider: role announcement, first-token
delay, then either the tool-call path (header chunk, one argument chunk
per 8-character slice with a delay before each, terminal chunk, DONE line,
all without a `res.destroyed` poll) or the polled per-token text loop. -/
def sendStreamingOAI (content : String) (toolCall : Option ToolCallVariant)
    (usage : UsageCounts) (death : ℕ) : List OAIAct :=
  .chunk roleChunk :: .sleepFirst ::
    (match toolCall with
     | some tc =>
       .chunk (toolHeaderChunk tc.name) ::
         ((chunkStringS tc.argsJson 8).flatMap fun ch => [.sleepToken, .chunk (toolArgChunk ch)]) ++
         [.chunk finalToolChunk, .doneLine]
     | none => oaiTextLoop usage (tokenizeStr content) 0 death)

/-- The `message` of a non-streaming chat.completion: textual content or
a one-entry `tool_calls` array of (name, serialized arguments), with the
random call id elided. -/
structure OAIMessage where
  role : String
  content : Option String
  toolCalls : Option (List (String × String))
deriving DecidableEq, Repr

/-- A non-streaming chat.completion document (random id and `created`
timestamp elided). -/
structure OAIDocument where
  object : String
  model : String
  message : OAIMessage
  finishReason : String
  usage : UsageCounts
deriving DecidableEq, Repr

/-- `sendNonStreaming` of the OpenAI provider. -/
def sendNonStreamingOAI (model content : String) (toolCall : Option ToolCallVariant)
    (usage : UsageCounts) : OAIDocument :=
  match toolCall with
  | some tc =>
    ⟨"chat.completion", model, ⟨"assistant", none, some [(tc.name, tc.argsJson)]⟩,
      "tool_calls", usage⟩
  | none => ⟨"chat.completion", model, ⟨"assistant", some content, none⟩, "stop", usage⟩

/-- Result of `handleChatCompletions`: one JSON document with its HTTP
status, or the streamed action list. -/
inductive OAIOutcome
  | jsonDoc (status : ℕ) (doc : OAIDocument)
  | stream (acts : List OAIAct)
deriving DecidableEq, Repr

/-- Content selection written identically in all three handlers: resolve
the persona, set `isToolCall` to `persona.name === "tool_calls" ||
body.tools?.length > 0`, then pick a paired tool-call variant when
`isToolCall && persona.toolCalls`, otherwise a text variant, at the
explicit random index. -/
def selectContent (personaHint : Option String) (defaultPersona : String)
    (hasTools : Bool) (idx : ℕ) : String × Option ToolCallVariant :=
  let persona := resolvePersona personaHint defaultPersona
  let isToolCall := persona.name == "tool_calls" || hasTools
  if isToolCall && persona.toolCalls.isSome then
    match getToolCallAt persona idx with
    | some (tc, resp) => (resp, some tc)
    | none => ("", none)
  else (getResponseAt persona idx, none)

/-- `handleChatCompletions` (src/providers/openai.js).  `streamFlag` is
`body.stream` (`none` models an absent field; the source applies
`?? false`); `promptTokens` stands for
`estimateTokens(JSON.stringify(body.messages || []))`; `idx` is the
content-selection draw; `death` is the destroyed-poll model. -/
def handleChatCompletions (model : String) (streamFlag : Option Bool)
    (personaHint : Option String) (defaultPersona : String) (hasTools : Bool)
    (idx promptTokens death : ℕ) : OAIOutcome :=
  let sel := selectContent personaHint defaultPersona hasTools idx
  let usage := mkUsage promptTokens (estimateTokens sel.1)
  if streamFlag.getD false then .stream (sendStreamingOAI sel.1 sel.2 usage death)
  else .jsonDoc 200 (sendNonStreamingOAI model sel.1 sel.2 usage)

/-! ## Anthropic-style Protocol Emitter (src/providers/anthropic.js) -/

/-- The `content_block` payload of a `content_block_start` event (random
tool-use id elided; a tool-use block starts with empty input). -/
inductive AnthBlockStart
  | text
  | tool_use (name : String)
deriving DecidableEq, Repr

/-- One action of the Anthropic streaming path: an awaited delay or one
`event:`/`data:` SSE pair, by event name. -/
inductive AnthAct
  | sleepFirst
  | sleepToken
  | message_start (inputTokens : ℕ)
  | content_block_start (index : ℕ) (block : AnthBlockStart)
  | content_block_delta_text (index : ℕ) (text : String)
  | content_block_delta_json (index : ℕ) (partialJson : String)
  | content_block_stop (index : ℕ)
  | message_delta (stopReason : String) (outputTokens : ℕ)
  | message_stop
deriving DecidableEq, Repr

/-- The polled per-token text loop of both Anthropic paths (block index
0): the emitted actions, the next poll number, and whether a positive
poll aborted the whole `sendStreaming` call. -/
def anthTextLoop : List String → ℕ → ℕ → List AnthAct × ℕ × Bool
  | [], k, _ => ([], k, false)
  | t :: rest, k, death =>
    if death ≤ k then ([.sleepToken], k, true)
    else
      let r := anthTextLoop rest (k + 1) death
      (.sleepToken :: .content_block_delta_text 0 t :: r.1, r.2.1, r.2.2)

/-- The polled tool-argument loop of the Anthropic tool path (block index
1), of the same shape as the text loop. -/
def anthJsonLoop : List String → ℕ → ℕ → List AnthAct × ℕ × Bool
  | [], k, _ => ([], k, false)
  | ch :: rest, k, death =>
    if death ≤ k then ([.sleepToken], k, true)
    else
      let r := anthJsonLoop rest (k + 1) death
      (.sleepToken :: .content_block_delta_json 1 ch :: r.1, r.2.1, r.2.2)

/-- `sendStreaming` of the Anthropic provider: `message_start` (zero
output usage), the first-token delay, a text block whose deltas are
polled, then for the tool path a tool-use block whose 12-character
argument fragments are polled, and the closing `content_block_stop`,
`message_delta` (final stop reason and output usage) and `message_stop`
events.  A positive poll returns at once. -/
def sendStreamingAnthropic (content : String) (toolCall : Option ToolCallVariant)
    (inputTokens outputTokens death : ℕ) : List AnthAct :=
  let intro := [AnthAct.message_start inputTokens, .sleepFirst, .content_block_start 0 .text]
  match toolCall with
  | some tc =>
    let r1 := anthTextLoop (tokenizeStr content) 0 death
    if r1.2.2 then intro ++ r1.1
    else
      let mid := [AnthAct.content_block_stop 0, .content_block_start 1 (.tool_use tc.name)]
      let r2 := anthJsonLoop (chunkStringS tc.argsJson 12) r1.2.1 death
      if r2.2.2 then intro ++ r1.1 ++ mid ++ r2.1
      else intro ++ r1.1 ++ mid ++ r2.1 ++
        [AnthAct.content_block_stop 1, .message_delta "tool_use" outputTokens, .message_stop]
  | none =>
    let r := anthTextLoop (tokenizeStr content) 0 death
    if r.2.2 then intro ++ r.1
    else intro ++ r.1 ++
      [AnthAct.content_block_stop 0, .message_delta "end_turn" outputTokens, .message_stop]

/-- One content block of a non-streaming Anthropic message. -/
inductive AnthBlock
  | text (body : String)
  | tool_use (name : String) (inputJson : String)
deriving DecidableEq, Repr

/-- A non-streaming Anthropic message document (random id elided;
`stop_sequence` is constantly null in the source and elided). -/
structure AnthDocument where
  typeTag : String
  role : String
  model : String
  content : List AnthBlock
  stopReason : String
  inputTokens : ℕ
  outputTokens : ℕ
deriving DecidableEq, Repr

/-- `sendNonStreaming` of the Anthropic provider. -/
def sendNonStreamingAnthropic (model content : String) (toolCall : Option ToolCallVariant)
    (inputTokens outputTokens : ℕ) : AnthDocument :=
  match toolCall with
  | some tc =>
    ⟨"message", "assistant", model, [.text content, .tool_use tc.name tc.argsJson],
      "tool_use", inputTokens, outputTokens⟩
  | none =>
    ⟨"message", "assistant", model, [.text content], "end_turn", inputTokens, outputTokens⟩

/-- Result of `handleMessages`. -/
inductive AnthOutcome
  | jsonDoc (status : ℕ) (doc : AnthDocument)
  | stream (acts : List AnthAct)
deriving DecidableEq, Repr

/-- `handleMessages` (src/providers/anthropic.js); parameters as in
`handleChatCompletions`, with `inputTokens` standing for
`estimateTokens(JSON.stringify(body.messages || []))`. -/
def handleMessages (model : String) (streamFlag : Option Bool)
    (personaHint : Option String) (defaultPersona : String) (hasTools : Bool)
    (idx inputTokens death : ℕ) : AnthOutcome :=
  let sel := selectContent personaHint defaultPersona hasTools idx
  let outputTokens := estimateTokens sel.1
  if streamFlag.getD false then
    .stream (sendStreamingAnthropic sel.1 sel.2 inputTokens outputTokens death)
  else .jsonDoc 200 (sendNonStreamingAnthropic model sel.1 sel.2 inputTokens outputTokens)

/-! ## Gemini-style Protocol Emitter (src/providers/gemini.js) -/

/-- One streamed Gemini frame: a miniature candidate document with a text
part or a function-call part (name, serialized args), and — on the
closing frame only — finish reason, fixed-shape safety ratings, and usage
metadata. -/
structure GemFrame where
  textPart : Option String
  functionCall : Option (String × String)
  finishReason : Option String
  hasSafetyRatings : Bool
  usageMetadata : Option UsageCounts
deriving DecidableEq, Repr

/-- One action of the Gemini streaming path. -/
inductive GemAct
  | sleepFirst
  | sleepToken
  | frame (f : GemFrame)
deriving DecidableEq, Repr

/-- A plain (non-final) streamed text frame. -/
def gemTextFrame (t : String) : GemFrame := ⟨some t, none, none, false, none⟩

/-- The final streamed text frame: finish reason STOP, safety ratings and
usage metadata attached. -/
def gemLastTextFrame (t : String) (usage : UsageCounts) : GemFrame :=
  ⟨some t, none, some "STOP", true, some usage⟩

/-- The single tool-call frame (the source does not token-split function
calls). -/
def gemToolFrame (tc : ToolCallVariant) (usage : UsageCounts) : GemFrame :=
  ⟨none, some (tc.name, tc.argsJson), some "TOOL_CALLS", true, some usage⟩

/-- The polled per-token loop of the Gemini text path; the frame of the
last token carries the closing fields. -/
def gemTextLoop (usage : UsageCounts) : List String → ℕ → ℕ → List GemAct
  | [], _, _ => []
  | [t], k, death =>
    .sleepToken :: (if death ≤ k then [] else [.frame (gemLastTextFrame t usage)])
  | t :: t2 :: rest, k, death =>
    .sleepToken ::
      (if death ≤ k then []
       else .frame (gemTextFrame t) :: gemTextLoop usage (t2 :: rest) (k + 1) death)

/-- `sendStreaming` of the Gemini provider: the first-token delay, then
either the single unpolled tool-call frame or the polled text loop. -/
def sendStreamingGemini (content : String) (toolCall : Option ToolCallVariant)
    (usage : UsageCounts) (death : ℕ) : List GemAct :=
  .sleepFirst ::
    (match toolCall with
     | some tc => [.frame (gemToolFrame tc usage)]
     | none => gemTextLoop usage (tokenizeStr content) 0 death)

/-- A non-streaming Gemini document: the single part of
`candidates[0].content.parts`, finish reason, usage metadata, model
version (fixed-shape safety ratings elided as constant). -/
structure GemDocument where
  textPart : Option String
  functionCall : Option (String × String)
  finishReason : String
  usageMetadata : UsageCounts
  modelVersion : String
deriving DecidableEq, Repr

/-- `sendNonStreaming` of the Gemini provider. -/
def sendNonStreamingGemini (model content : String) (toolCall : Option ToolCallVariant)
    (usage : UsageCounts) : GemDocument :=
  match toolCall with
  | some tc => ⟨none, some (tc.name, tc.argsJson), "TOOL_CALLS", usage, model⟩
  | none => ⟨some content, none, "STOP", usage, model⟩

/-- Result of `handleGenerateContent`. -/
inductive GemOutcome
  | jsonDoc (status : ℕ) (doc : GemDocument)
  | stream (acts : List GemAct)
deriving DecidableEq, Repr

/-- `handleGenerateContent` (src/providers/gemini.js); the stream flag is
a plain Bool because the route (`:streamGenerateContent`) decides it, and
`promptTokens` stands for
`estimateTokens(JSON.stringify(body.contents || []))`. -/
def handleGenerateContent (model : String) (stream : Bool)
    (personaHint : Option String) (defaultPersona : String) (hasTools : Bool)
    (idx promptTokens death : ℕ) : GemOutcome :=
  let sel := selectContent personaHint defaultPersona hasTools idx
  let usage := mkUsage promptTokens (estimateTokens sel.1)
  if stream then .stream (sendStreamingGemini sel.1 sel.2 usage death)
  else .jsonDoc 200 (sendNonStreamingGemini model sel.1 sel.2 usage)

/-! ## Server dispatch (src/server.js), OpenAI route -/

/-- Outcome of the server dispatch for the OpenAI route: a rendered chaos
fault, or the outcome of the provider handler. -/
inductive ServerOutcomeOAI
  | fault (payload : FaultPayload)
  | normal (out : OAIOutcome)
deriving DecidableEq, Repr

/-- The chaos check and dispatch of src/server.js for POST
/v1/chat/completions: decide chaos from the single roll; rate-limit and
server-error short-circuit with `getChaosResponse`; slowdown multiplies
the latency bases and then routes normally (delays are opaque sleep
markers here, so the slowed configuration routes identically); otherwise
route to the provider.  The `Handle __ERROR__ persona responses` comment
in the source stands directly before a plain `routeToProvider` call: no
sentinel detection happens anywhere. -/
def serverHandleOpenAI (chaos : ChaosSettings) (roll : ℚ) (model : String)
    (streamFlag : Option Bool) (personaHint : Option String)
    (defaultPersona : String) (hasTools : Bool) (idx promptTokens death : ℕ) :
    ServerOutcomeOAI :=
  match shouldTriggerChaos chaos roll with
  | some .slowdown =>
    .normal (handleChatCompletions model streamFlag personaHint defaultPersona hasTools
      idx promptTokens death)
  | some t => .fault (getChaosResponse (chaosTypeName t) "openai")
  | none =>
    .normal (handleChatCompletions model streamFlag personaHint defaultPersona hasTools
      idx promptTokens death)

/-! ## Projections used by the theorems -/

/-- Sleep test for OpenAI actions. -/
def isOAISleep : OAIAct → Bool
  | .sleepFirst => true
  | .sleepToken => true
  | _ => false

/-- The written frames of an OpenAI action list (sleeps dropped). -/
def oaiFrames (acts : List OAIAct) : List OAIAct := acts.filter fun a => !isOAISleep a

/-- A terminal OpenAI chunk: empty delta together with a finish_reason. -/
def isOAITerminalChunk : OAIAct → Bool
  | .chunk ⟨⟨none, none, none, none⟩, some _, _⟩ => true
  | _ => false

/-- The literal DONE line. -/
def isOAIDoneLine : OAIAct → Bool
  | .doneLine => true
  | _ => false

/-- Sleep test for Anthropic actions. -/
def isAnthSleep : AnthAct → Bool
  | .sleepFirst => true
  | .sleepToken => true
  | _ => false

/-- The written events of an Anthropic action list (sleeps dropped). -/
def anthEvents (acts : List AnthAct) : List AnthAct := acts.filter fun a => !isAnthSleep a

/-- A `content_block_start` event of tool_use type. -/
def isAnthToolUseStart : AnthAct → Bool
  | .content_block_start _ (.tool_use _) => true
  | _ => false

/-- A `message_delta` event. -/
def isAnthMessageDelta : AnthAct → Bool
  | .message_delta _ _ => true
  | _ => false

/-- A `message_stop` event. -/
def isAnthMessageStop : AnthAct → Bool
  | .message_stop => true
  | _ => false

/-- Sleep test for Gemini actions. -/
def isGemSleep : GemAct → Bool
  | .sleepFirst => true
  | .sleepToken => true
  | _ => false

/-- The written frames of a Gemini action list. -/
def gemFrames (acts : List GemAct) : List GemFrame :=
  acts.filterMap fun a => match a with | .frame f => some f | _ => none

/-- Count of awaited latency-model delays in an OpenAI outcome. -/
def oaiSleepCount : OAIOutcome → ℕ
  | .jsonDoc _ _ => 0
  | .stream acts => acts.countP isOAISleep

/-- Count of awaited latency-model delays in an Anthropic outcome. -/
def anthSleepCount : AnthOutcome → ℕ
  | .jsonDoc _ _ => 0
  | .stream acts => acts.countP isAnthSleep

/-- Count of awaited latency-model delays in a Gemini outcome. -/
def gemSleepCount : GemOutcome → ℕ
  | .jsonDoc _ _ => 0
  | .stream acts => acts.countP isGemSleep

/-- True when the server responded with a chaos fault payload. -/
def isFaultOutcome : ServerOutcomeOAI → Bool
  | .fault _ => true
  | .normal _ => false

/-- The non-streaming message content of a server outcome, when there is
one. -/
def outcomeDocContent : ServerOutcomeOAI → Option String
  | .normal (.jsonDoc _ d) => d.message.content
  | _ => none

/-- All content-delta text of a streamed server outcome, concatenated in
order. -/
def outcomeStreamText : ServerOutcomeOAI → Option String
  | .normal (.stream acts) =>
    some (String.join (acts.filterMap fun a =>
      match a with
      | .chunk c => c.delta.content
      | _ => none))
  | _ => none


/-- The action list of a streamed OpenAI outcome (empty for a document). -/
def oaiStreamActs : OAIOutcome → List OAIAct
  | .jsonDoc _ _ => []
  | .stream acts => acts

/-- The action list of a streamed Anthropic outcome. -/
def anthStreamActs : AnthOutcome → List AnthAct
  | .jsonDoc _ _ => []
  | .stream acts => acts

/-- The action list of a streamed Gemini outcome. -/
def gemStreamActs : GemOutcome → List GemAct
  | .jsonDoc _ _ => []
  | .stream acts => acts

/-! ## JavaScript property lookup with the Object.prototype chain

The two dynamic-key object reads of the source, `personas[name]` and
`errors[type]?.[provider]`, hit plain object literals, which inherit from
`Object.prototype`.  A key such as "constructor" or "toString" therefore
does not come back `undefined`: it yields the inherited member, which is
truthy and short-circuits every `||` fallback.  The own-property tables
above (`personasLookup`, `errorsTable`) are exact for catalog keys; the
definitions below add the inherited-member case. -/

/-- The own property names of `Object.prototype` (ECMA-262): each read of
one of these on a plain object literal yields a truthy inherited value. -/
def objectProtoKeys : List String :=
  ["constructor", "hasOwnProperty", "isPrototypeOf", "propertyIsEnumerable",
   "toLocaleString", "toString", "valueOf", "__defineGetter__", "__defineSetter__",
   "__lookupGetter__", "__lookupSetter__", "__proto__"]

/-- A truthy value read off a plain object literal: an own data property
carrying a payload, or a member inherited from `Object.prototype` (a
function, or `Object.prototype` itself for `__proto__`). -/
inductive JSValue (α : Type)
  | val (a : α)
  | protoMember (name : String)
deriving DecidableEq, Repr

/-- The property read `o[key]` on a plain object literal whose own
properties are `own`: an own property, else a truthy inherited
`Object.prototype` member, else `none` for `undefined` (falsy). -/
def jsGetProp {α : Type} (own : String → Option α) (key : String) : Option (JSValue α) :=
  match own key with
  | some a => some (.val a)
  | none => if objectProtoKeys.contains key then some (.protoMember key) else none

/-- `getPersona(name)` with the full JS lookup semantics:
`personas[name] || personas.balanced`, where an inherited
`Object.prototype` member is truthy and preempts the fallback. -/
def getPersonaJS (name : String) : JSValue Persona :=
  match jsGetProp personasLookup name with
  | some v => v
  | none => .val balancedPersona

/-- `getResponse` applied to the resolved persona value: on a catalog
persona it returns the indexed variant; on an inherited member
`p.responses` is `undefined` and reading `.length` of it throws a
TypeError, so the request fails before anything is written. -/
def getResponseJS (v : JSValue Persona) (idx : ℕ) : Except String String :=
  match v with
  | .val p => .ok (getResponseAt p idx)
  | .protoMember _ => .error "TypeError: cannot read length of undefined responses"

/-- True when the content-resolution step completed without throwing. -/
def requestSucceeds : Except String String → Bool
  | .ok _ => true
  | .error _ => false

/-- `resolvePersona` over the full JS lookup. -/
def resolvePersonaJS (personaHint : Option String) (defaultPersona : String) : JSValue Persona :=
  match personaHint with
  | some h => if h = "" then getPersonaJS defaultPersona else getPersonaJS h
  | none => getPersonaJS defaultPersona

/-- Content selection over the full JS lookup: an inherited member has no
`name` equal to "tool_calls", no truthy `toolCalls`, and `getResponse`
then throws on its undefined `responses`; a catalog persona selects
exactly as `selectContent`. -/
def selectContentJS (personaHint : Option String) (defaultPersona : String)
    (hasTools : Bool) (idx : ℕ) : Except String (String × Option ToolCallVariant) :=
  match resolvePersonaJS personaHint defaultPersona with
  | .protoMember _ => .error "TypeError: cannot read length of undefined responses"
  | .val persona =>
    .ok (if (persona.name == "tool_calls" || hasTools) && persona.toolCalls.isSome then
      match getToolCallAt persona idx with
      | some (tc, resp) => (resp, some tc)
      | none => ("", none)
    else (getResponseAt persona idx, none))

/-- `handleChatCompletions` over the full JS lookup: a throw during
content resolution (`.error`) escapes before any frame or document is
written. -/
def handleChatCompletionsJS (model : String) (streamFlag : Option Bool)
    (personaHint : Option String) (defaultPersona : String) (hasTools : Bool)
    (idx promptTokens death : ℕ) : Except String OAIOutcome :=
  match selectContentJS personaHint defaultPersona hasTools idx with
  | .error e => .error e
  | .ok sel =>
    .ok (if streamFlag.getD false then
        .stream (sendStreamingOAI sel.1 sel.2 (mkUsage promptTokens (estimateTokens sel.1)) death)
      else .jsonDoc 200 (sendNonStreamingOAI model sel.1 sel.2
        (mkUsage promptTokens (estimateTokens sel.1))))

/-- `handleMessages` over the full JS lookup. -/
def handleMessagesJS (model : String) (streamFlag : Option Bool)
    (personaHint : Option String) (defaultPersona : String) (hasTools : Bool)
    (idx inputTokens death : ℕ) : Except String AnthOutcome :=
  match selectContentJS personaHint defaultPersona hasTools idx with
  | .error e => .error e
  | .ok sel =>
    .ok (if streamFlag.getD false then
        .stream (sendStreamingAnthropic sel.1 sel.2 inputTokens (estimateTokens sel.1) death)
      else .jsonDoc 200 (sendNonStreamingAnthropic model sel.1 sel.2 inputTokens
        (estimateTokens sel.1)))

/-- `handleGenerateContent` over the full JS lookup. -/
def handleGenerateContentJS (model : String) (stream : Bool)
    (personaHint : Option String) (defaultPersona : String) (hasTools : Bool)
    (idx promptTokens death : ℕ) : Except String GemOutcome :=
  match selectContentJS personaHint defaultPersona hasTools idx with
  | .error e => .error e
  | .ok sel =>
    .ok (if stream then
        .stream (sendStreamingGemini sel.1 sel.2 (mkUsage promptTokens (estimateTokens sel.1)) death)
      else .jsonDoc 200 (sendNonStreamingGemini model sel.1 sel.2
        (mkUsage promptTokens (estimateTokens sel.1))))

/-- True when the handler threw before writing anything. -/
def isThrown {α : Type} : Except String α → Bool
  | .error _ => true
  | .ok _ => false

/-- Awaited delays of a JS-lookup OpenAI handler run (a thrown run awaits
none). -/
def oaiSleepCountJS : Except String OAIOutcome → ℕ
  | .error _ => 0
  | .ok out => oaiSleepCount out

/-- Awaited delays of a JS-lookup Anthropic handler run. -/
def anthSleepCountJS : Except String AnthOutcome → ℕ
  | .error _ => 0
  | .ok out => anthSleepCount out

/-- Awaited delays of a JS-lookup Gemini handler run. -/
def gemSleepCountJS : Except String GemOutcome → ℕ
  | .error _ => 0
  | .ok out => gemSleepCount out

/-- The four own kind keys of the `errors` literal in `getChaosResponse`. -/
def chaosKinds : List String := ["rate_limit", "server_error", "context_length", "timeout"]

/-- Outcome of `getChaosResponse` over the full JS lookup: a table
payload; a member inherited from `Object.prototype` that the truthiness
chain let through; or, when `errors[kind]` is itself an inherited
function, the unmodelled property read `fn[provider]` on that function
(it can yield a value, `undefined` with fallback, or even a TypeError for
`arguments`/`caller` — no theorem below touches this constructor). -/
inductive ChaosResult
  | payload (r : FaultPayload)
  | protoMember (name : String)
  | inheritedFnProp (kind provider : String)
deriving DecidableEq, Repr

/-- The tail of the chain:
`errors.server_error[provider] || errors.server_error.openai` with the
inherited-member case. -/
def chaosFallbackJS (provider : String) : ChaosResult :=
  match errorsTable "server_error" provider with
  | some r => .payload r
  | none =>
    if objectProtoKeys.contains provider then .protoMember provider
    else .payload openaiServerErrorPayload

/-- `getChaosResponse` over the full JS lookup:
`errors[type]?.[provider] || errors.server_error[provider] ||
errors.server_error.openai` with `Object.prototype` inheritance at each
object read. -/
def getChaosResponseJS (t provider : String) : ChaosResult :=
  if chaosKinds.contains t then
    match errorsTable t provider with
    | some r => .payload r
    | none =>
      if objectProtoKeys.contains provider then .protoMember provider
      else chaosFallbackJS provider
  else if objectProtoKeys.contains t then .inheritedFnProp t provider
  else chaosFallbackJS provider

/-! ## Theorems and witnesses -/

/-! ### Characterizations of the polled emission loops -/

theorem oaiTextLoop_eq (usage : UsageCounts) (tokens : List String) (death : ℕ) :
    ∀ k, k ≤ death →
    oaiTextLoop usage tokens k death =
      if death - k < tokens.length then
        ((tokens.take (death - k)).flatMap fun t => [.sleepToken, .chunk (contentChunk t)]) ++
          [.sleepToken]
      else
        (tokens.flatMap fun t => [.sleepToken, .chunk (contentChunk t)]) ++
          [.chunk (finalTextChunk usage), .doneLine] := by
  induction tokens with
  | nil =>
    intro k h
    simp [oaiTextLoop]
  | cons t rest ih =>
    intro k h
    rw [oaiTextLoop]
    by_cases hk : death ≤ k
    · have hek : death = k := le_antisymm hk h
      subst hek
      simp
    · have ihk := ih (k + 1) (by omega)
      rw [if_neg hk, ihk]
      have hdk : death - k = (death - (k + 1)) + 1 := by omega
      by_cases hlt : death - (k + 1) < rest.length
      · rw [if_pos hlt, if_pos (by simp; omega)]
        simp only [hdk, List.take_succ_cons, List.flatMap_cons, List.cons_append,
          List.append_assoc, List.nil_append]
      · rw [if_neg hlt, if_neg (by simp; omega)]
        simp only [List.flatMap_cons, List.cons_append, List.append_assoc, List.nil_append]

theorem anthTextLoop_eq (tokens : List String) (death : ℕ) :
    ∀ k, k ≤ death →
    anthTextLoop tokens k death =
      if death - k < tokens.length then
        (((tokens.take (death - k)).flatMap fun t =>
            [.sleepToken, .content_block_delta_text 0 t]) ++ [.sleepToken], death, true)
      else
        ((tokens.flatMap fun t => [.sleepToken, .content_block_delta_text 0 t]),
          k + tokens.length, false) := by
  induction tokens with
  | nil =>
    intro k h
    simp [anthTextLoop]
  | cons t rest ih =>
    intro k h
    rw [anthTextLoop]
    by_cases hk : death ≤ k
    · have hek : death = k := le_antisymm hk h
      subst hek
      simp
    · have ihk := ih (k + 1) (by omega)
      rw [if_neg hk, ihk]
      have hdk : death - k = (death - (k + 1)) + 1 := by omega
      by_cases hlt : death - (k + 1) < rest.length
      · rw [if_pos hlt, if_pos (by simp; omega)]
        simp only [hdk, List.take_succ_cons, List.flatMap_cons, List.cons_append,
          List.append_assoc, List.nil_append]
      · rw [if_neg hlt, if_neg (by simp; omega)]
        simp only [List.flatMap_cons, List.cons_append, List.append_assoc,
          List.nil_append, List.length_cons, Prod.mk.injEq]
        exact ⟨trivial, by omega, trivial⟩

theorem anthJsonLoop_eq (chunks : List String) (death : ℕ) :
    ∀ k, k ≤ death →
    anthJsonLoop chunks k death =
      if death - k < chunks.length then
        (((chunks.take (death - k)).flatMap fun ch =>
            [.sleepToken, .content_block_delta_json 1 ch]) ++ [.sleepToken], death, true)
      else
        ((chunks.flatMap fun ch => [.sleepToken, .content_block_delta_json 1 ch]),
          k + chunks.length, false) := by
  induction chunks with
  | nil =>
    intro k h
    simp [anthJsonLoop]
  | cons c rest ih =>
    intro k h
    rw [anthJsonLoop]
    by_cases hk : death ≤ k
    · have hek : death = k := le_antisymm hk h
      subst hek
      simp
    · have ihk := ih (k + 1) (by omega)
      rw [if_neg hk, ihk]
      have hdk : death - k = (death - (k + 1)) + 1 := by omega
      by_cases hlt : death - (k + 1) < rest.length
      · rw [if_pos hlt, if_pos (by simp; omega)]
        simp only [hdk, List.take_succ_cons, List.flatMap_cons, List.cons_append,
          List.append_assoc, List.nil_append]
      · rw [if_neg hlt, if_neg (by simp; omega)]
        simp only [List.flatMap_cons, List.cons_append, List.append_assoc,
          List.nil_append, List.length_cons, Prod.mk.injEq]
        exact ⟨trivial, by omega, trivial⟩

theorem gemTextLoop_eq (usage : UsageCounts) (tokens : List String) (death : ℕ) :
    ∀ k, k ≤ death →
    gemTextLoop usage tokens k death =
      if death - k < tokens.length then
        ((tokens.take (death - k)).flatMap fun t => [.sleepToken, .frame (gemTextFrame t)]) ++
          [.sleepToken]
      else
        (tokens.dropLast.flatMap fun t => [.sleepToken, .frame (gemTextFrame t)]) ++
          (match tokens.getLast? with
           | some t => [.sleepToken, .frame (gemLastTextFrame t usage)]
           | none => []) := by
  induction tokens with
  | nil =>
    intro k h
    simp [gemTextLoop]
  | cons t rest ih =>
    intro k h
    cases rest with
    | nil =>
      rw [gemTextLoop]
      by_cases hk : death ≤ k
      · have hek : death = k := le_antisymm hk h
        subst hek
        simp
      · rw [if_neg hk, if_neg (by simp; omega)]
        rfl
    | cons t2 rest2 =>
      rw [gemTextLoop]
      by_cases hk : death ≤ k
      · have hek : death = k := le_antisymm hk h
        subst hek
        simp
      · have ihk := ih (k + 1) (by omega)
        rw [if_neg hk, ihk]
        have hdk : death - k = (death - (k + 1)) + 1 := by omega
        by_cases hlt : death - (k + 1) < (t2 :: rest2).length
        · rw [if_pos hlt, if_pos (by simp at hlt ⊢; omega)]
          simp only [hdk, List.take_succ_cons, List.flatMap_cons, List.cons_append,
            List.append_assoc, List.nil_append]
        · rw [if_neg hlt, if_neg (by simp at hlt ⊢; omega)]
          rw [List.getLast?_cons_cons]
          simp only [List.dropLast, List.flatMap_cons, List.cons_append, List.append_assoc,
            List.nil_append]


/-! ### Round-trip law for the segmenter -/

theorem tokenizeFuel_flatten (fuel : ℕ) (s : List Char) (h : s.length ≤ fuel) :
    (tokenizeFuel fuel s).flatten = s := by
  induction fuel generalizing s with
  | zero =>
    have : s = [] := List.length_eq_zero.mp (Nat.le_zero.mp h)
    subst this
    rfl
  | succ fuel ih =>
    match s with
    | [] => rfl
    | c :: rest =>
      rw [tokenizeFuel]
      have hrest : rest.length ≤ fuel := by
        simp only [List.length_cons] at h
        omega
      have hdrop : ∀ p : Char → Bool, (rest.dropWhile p).length ≤ fuel := fun p =>
        le_trans (List.dropWhile_sublist p).length_le hrest
      by_cases h1 : isSpaceChar c
      · simp [h1, ih _ (hdrop isSpaceChar), List.takeWhile_append_dropWhile]
      · by_cases h2 : isWordChar c
        · simp [h1, h2, ih _ (hdrop isWordChar), List.takeWhile_append_dropWhile]
        · simp [h1, h2, ih rest hrest]

/-- Claim C4: concatenating, in order, all tokens the Token Segmenter
produces from an input string reproduces that string exactly. -/
theorem C4_tokenize_roundtrip (s : String) : String.join (tokenizeStr s) = s := by
  apply String.ext
  simp only [tokenizeStr, String.data_join, List.map_map]
  rw [show String.data ∘ String.mk = id from rfl, List.map_id, tokenize,
    tokenizeFuel_flatten _ _ (le_refl _)]


/-! ### Theorems for claims C2, C3, C5 -/

/-- Claim C2: with chaos enabled, the single uniform roll is partitioned
into cumulative, non-overlapping bands in the fixed order rate-limit,
server-error, slowdown, and any roll past all three bands yields `none`;
with chaos disabled the decision is always `none`. -/
theorem C2_shouldTriggerChaos_bands (chaos : ChaosSettings) (roll : ℚ)
    (hr : 0 ≤ chaos.rateLimitRate) (he : 0 ≤ chaos.errorRate)
    (hs : 0 ≤ chaos.slowdownRate) :
    (chaos.enabled = true →
      ((shouldTriggerChaos chaos roll = some .rate_limit ↔ roll < chaos.rateLimitRate) ∧
       (shouldTriggerChaos chaos roll = some .server_error ↔
         chaos.rateLimitRate ≤ roll ∧ roll < chaos.rateLimitRate + chaos.errorRate) ∧
       (shouldTriggerChaos chaos roll = some .slowdown ↔
         chaos.rateLimitRate + chaos.errorRate ≤ roll ∧
           roll < chaos.rateLimitRate + chaos.errorRate + chaos.slowdownRate) ∧
       (shouldTriggerChaos chaos roll = none ↔
         chaos.rateLimitRate + chaos.errorRate + chaos.slowdownRate ≤ roll))) ∧
    (chaos.enabled = false → shouldTriggerChaos chaos roll = none) := by
  constructor
  · intro hen
    unfold shouldTriggerChaos
    rw [hen]
    simp only [Bool.not_true, Bool.false_eq_true, if_false]
    split_ifs with h1 h2 h3
    · exact ⟨iff_of_true rfl h1,
        iff_of_false (by simp) (by rintro ⟨ha, _⟩; linarith),
        iff_of_false (by simp) (by rintro ⟨ha, _⟩; linarith),
        iff_of_false (by simp) (by intro hc; linarith)⟩
    · exact ⟨iff_of_false (by simp) h1,
        iff_of_true rfl ⟨le_of_not_lt h1, h2⟩,
        iff_of_false (by simp) (by rintro ⟨ha, _⟩; linarith),
        iff_of_false (by simp) (by intro hc; linarith)⟩
    · exact ⟨iff_of_false (by simp) h1,
        iff_of_false (by simp) (by rintro ⟨_, hb⟩; exact h2 hb),
        iff_of_true rfl ⟨le_of_not_lt h2, h3⟩,
        iff_of_false (by simp) (by intro hc; linarith)⟩
    · exact ⟨iff_of_false (by simp) h1,
        iff_of_false (by simp) (by rintro ⟨_, hb⟩; exact h2 hb),
        iff_of_false (by simp) (by rintro ⟨_, hb⟩; exact h3 hb),
        iff_of_true rfl (le_of_not_lt h3)⟩
  · intro hen
    unfold shouldTriggerChaos
    rw [hen]
    rfl

/-- Witness for C2: with rates (0.1, 0.2, 0.3) enabled, a roll of 0.15
lands in the server-error band. -/
theorem C2_witness :
    shouldTriggerChaos ⟨true, 1/10, 1/5, 3/10, 5⟩ (3/20) = some ChaosType.server_error :=
  (((C2_shouldTriggerChaos_bands ⟨true, 1/10, 1/5, 3/10, 5⟩ (3/20) (by norm_num)
    (by norm_num) (by norm_num)).1 rfl).2.1).mpr (by norm_num)

/-- Claim C5: for nonnegative configured bases and variance and a uniform
draw `u ∈ [0, 1)`, the first-token delay is at least 50 ms, the per-token
delay is at least 5 ms, and each delay before rounding and flooring lies
between `base * (1 - variance)` and `base * (1 + variance)`. -/
theorem C5_latency_bounds (latency : LatencySettings) (u : ℚ)
    (hft : 0 ≤ latency.firstToken) (hpt : 0 ≤ latency.perToken)
    (hv : 0 ≤ latency.variance) (hu0 : 0 ≤ u) (hu1 : u < 1) :
    50 ≤ getFirstTokenDelay latency u ∧ 5 ≤ getTokenDelay latency u ∧
    latency.firstToken * (1 - latency.variance) ≤ rawFirstTokenDelay latency u ∧
    rawFirstTokenDelay latency u ≤ latency.firstToken * (1 + latency.variance) ∧
    latency.perToken * (1 - latency.variance) ≤ rawPerTokenDelay latency u ∧
    rawPerTokenDelay latency u ≤ latency.perToken * (1 + latency.variance) := by
  have h2u : (0:ℚ) ≤ 2 - u * 2 := by linarith
  refine ⟨le_max_left _ _, le_max_left _ _, ?_, ?_, ?_, ?_⟩ <;>
    simp only [rawFirstTokenDelay, rawPerTokenDelay, jitterFactor]
  · nlinarith [mul_nonneg (mul_nonneg hft hv) hu0]
  · nlinarith [mul_nonneg (mul_nonneg hft hv) h2u]
  · nlinarith [mul_nonneg (mul_nonneg hpt hv) hu0]
  · nlinarith [mul_nonneg (mul_nonneg hpt hv) h2u]

/-- Witness for C5 at the default configuration (300 ms, 30 ms, variance
0.3) and draw 1/2. -/
theorem C5_witness :
    50 ≤ getFirstTokenDelay ⟨300, 30, 3/10⟩ (1/2) ∧
    5 ≤ getTokenDelay ⟨300, 30, 3/10⟩ (1/2) ∧
    (300 : ℚ) * (1 - 3/10) ≤ rawFirstTokenDelay ⟨300, 30, 3/10⟩ (1/2) ∧
    rawFirstTokenDelay ⟨300, 30, 3/10⟩ (1/2) ≤ (300 : ℚ) * (1 + 3/10) ∧
    (30 : ℚ) * (1 - 3/10) ≤ rawPerTokenDelay ⟨300, 30, 3/10⟩ (1/2) ∧
    rawPerTokenDelay ⟨300, 30, 3/10⟩ (1/2) ≤ (30 : ℚ) * (1 + 3/10) :=
  C5_latency_bounds ⟨300, 30, 3/10⟩ (1/2) (by norm_num) (by norm_num) (by norm_num)
    (by norm_num) (by norm_num)


/-! ### Filtering helpers -/

theorem filter_flatMap_pair {α β : Type} (p : α → Bool) (l : List β) (s : α) (g : β → α)
    (hs : p s = false) (hg : ∀ b, p (g b) = true) :
    ((l.flatMap fun b => [s, g b]).filter p) = l.map g := by
  induction l with
  | nil => rfl
  | cons b t ih =>
    rw [List.flatMap_cons, List.filter_append, ih]
    simp [List.filter, hs, hg b]

theorem filterMap_flatMap_pair {α β γ : Type} (f : α → Option γ) (l : List β) (s : α)
    (g : β → α) (e : β → γ) (hs : f s = none) (hg : ∀ b, f (g b) = some (e b)) :
    ((l.flatMap fun b => [s, g b]).filterMap f) = l.map e := by
  induction l with
  | nil => rfl
  | cons b t ih =>
    rw [List.flatMap_cons, List.filterMap_append, ih]
    simp [List.filterMap, hs, hg b]

/-! ### Claim C7 (liveness polling), corrected -/

/-- Counterexample to claim C7 as stated: with the connection destroyed
from the very start (`death = 0`, every liveness poll reports dead), a
streaming tool-call request on the OpenAI route still writes eleven
frames, the last one the literal DONE line — the tool-call argument
loop and the terminal frames are emitted with no liveness check at all,
contradicting "once the connection is no longer writable the loop emits
no further frames". -/
theorem C7_counterexample :
    (oaiFrames (oaiStreamActs (handleChatCompletions "gpt-4" (some true) (some "tool_calls")
        "balanced" false 0 7 0))).length = 11 ∧
    (oaiStreamActs (handleChatCompletions "gpt-4" (some true) (some "tool_calls")
        "balanced" false 0 7 0)).getLast? = some OAIAct.doneLine := by
  decide

/-- Claim C7 as amended: the per-token text loops of all three emitters,
and the tool-argument loop of the Anthropic emitter, poll `res.destroyed`
after each delay and before the frame write, and from the first positive
poll on the loop emits no further frames and raises no error (the first
three conjuncts and, for the Anthropic tool path dying during its text
block, the fourth); but the announcement frames, the whole OpenAI
tool-call path, the Gemini tool-call frame, and every terminal frame are
written without a liveness check (the last two conjuncts: a connection
dead from the start still receives the complete sequence). -/
theorem C7_amended_liveness (content : String) (tc : ToolCallVariant)
    (usage : UsageCounts) (inputTokens outputTokens death : ℕ)
    (hdeath : death < (tokenizeStr content).length) :
    sendStreamingOAI content none usage death =
      .chunk roleChunk :: .sleepFirst ::
        ((((tokenizeStr content).take death).flatMap fun t =>
          [.sleepToken, .chunk (contentChunk t)]) ++ [.sleepToken]) ∧
    sendStreamingAnthropic content none inputTokens outputTokens death =
      [AnthAct.message_start inputTokens, .sleepFirst, .content_block_start 0 .text] ++
        ((((tokenizeStr content).take death).flatMap fun t =>
          [.sleepToken, .content_block_delta_text 0 t]) ++ [.sleepToken]) ∧
    sendStreamingAnthropic content (some tc) inputTokens outputTokens death =
      [AnthAct.message_start inputTokens, .sleepFirst, .content_block_start 0 .text] ++
        ((((tokenizeStr content).take death).flatMap fun t =>
          [.sleepToken, .content_block_delta_text 0 t]) ++ [.sleepToken]) ∧
    sendStreamingGemini content none usage death =
      .sleepFirst :: ((((tokenizeStr content).take death).flatMap fun t =>
        [.sleepToken, .frame (gemTextFrame t)]) ++ [.sleepToken]) ∧
    sendStreamingOAI content (some tc) usage 0 =
      .chunk roleChunk :: .sleepFirst :: .chunk (toolHeaderChunk tc.name) ::
        (((chunkStringS tc.argsJson 8).flatMap fun ch =>
          [.sleepToken, .chunk (toolArgChunk ch)]) ++ [.chunk finalToolChunk, .doneLine]) ∧
    sendStreamingGemini content (some tc) usage 0 = [.sleepFirst, .frame (gemToolFrame tc usage)] := by
  have h0 : death - 0 = death := Nat.sub_zero death
  have htext := anthTextLoop_eq (tokenizeStr content) death 0 (Nat.zero_le _)
  rw [h0, if_pos hdeath] at htext
  refine ⟨?_, ?_, ?_, ?_, rfl, rfl⟩
  · show OAIAct.chunk roleChunk :: .sleepFirst ::
        oaiTextLoop usage (tokenizeStr content) 0 death = _
    rw [oaiTextLoop_eq usage (tokenizeStr content) death 0 (Nat.zero_le _), h0,
      if_pos hdeath]
  · simp [sendStreamingAnthropic, htext]
  · simp [sendStreamingAnthropic, htext]
  · show GemAct.sleepFirst :: gemTextLoop usage (tokenizeStr content) 0 death = _
    rw [gemTextLoop_eq usage (tokenizeStr content) death 0 (Nat.zero_le _), h0,
      if_pos hdeath]

/-- Witness for C7 as amended, at content "Hi there" with the connection
dying at the second poll. -/
theorem C7_witness :
    1 < (tokenizeStr "Hi there").length ∧
    sendStreamingOAI "Hi there" none ⟨1, 2, 3⟩ 1 =
      .chunk roleChunk :: .sleepFirst ::
        ((((tokenizeStr "Hi there").take 1).flatMap fun t =>
          [.sleepToken, .chunk (contentChunk t)]) ++ [.sleepToken]) :=
  ⟨by decide,
   (C7_amended_liveness "Hi there" ⟨"f", "x"⟩ ⟨1, 2, 3⟩ 0 0 1 (by decide)).1⟩

/-! ### Claim C8 (streaming termination invariant) -/

/-- Claim C8: for every stream that runs to completion (`death` at least
the number of polls, nonempty token list), exactly one terminal frame
sequence is emitted and nothing follows it.  OpenAI (both modes): the
frame list ends with exactly one chunk carrying an empty delta and a
finish_reason, followed by the literal DONE line, and contains exactly one
DONE line.  Gemini: in text mode every frame but the last carries neither
usageMetadata nor finishReason and the last carries both; in tool mode the
single frame carries both.  Anthropic text mode: the event list ends with
`message_stop` and contains exactly one `message_stop` and one
`message_delta`. -/
theorem C8_stream_termination (content : String) (tc : ToolCallVariant)
    (usage : UsageCounts) (inputTokens outputTokens death : ℕ)
    (hne : tokenizeStr content ≠ [])
    (hdeath : (tokenizeStr content).length + (chunkStringS tc.argsJson 12).length ≤ death) :
    (oaiFrames (sendStreamingOAI content none usage death)).getLast? = some .doneLine ∧
    (oaiFrames (sendStreamingOAI content none usage death)).countP isOAIDoneLine = 1 ∧
    (oaiFrames (sendStreamingOAI content none usage death)).countP isOAITerminalChunk = 1 ∧
    (oaiFrames (sendStreamingOAI content none usage death)).dropLast.getLast? =
      some (.chunk (finalTextChunk usage)) ∧
    (oaiFrames (sendStreamingOAI content (some tc) usage death)).getLast? = some .doneLine ∧
    (oaiFrames (sendStreamingOAI content (some tc) usage death)).countP isOAIDoneLine = 1 ∧
    (oaiFrames (sendStreamingOAI content (some tc) usage death)).countP isOAITerminalChunk = 1 ∧
    (oaiFrames (sendStreamingOAI content (some tc) usage death)).dropLast.getLast? =
      some (.chunk finalToolChunk) ∧
    (∀ f ∈ (gemFrames (sendStreamingGemini content none usage death)).dropLast,
      f.finishReason = none ∧ f.usageMetadata = none) ∧
    (∃ t, (gemFrames (sendStreamingGemini content none usage death)).getLast? =
      some (gemLastTextFrame t usage)) ∧
    gemFrames (sendStreamingGemini content (some tc) usage death) = [gemToolFrame tc usage] ∧
    (anthEvents (sendStreamingAnthropic content none inputTokens outputTokens death)).getLast? =
      some .message_stop ∧
    (anthEvents (sendStreamingAnthropic content none inputTokens outputTokens death)).countP
      isAnthMessageStop = 1 ∧
    (anthEvents (sendStreamingAnthropic content none inputTokens outputTokens death)).countP
      isAnthMessageDelta = 1 := by
  have hlen : ¬ death < (tokenizeStr content).length := by omega
  -- OpenAI text mode, explicit stream and frames
  have hoaiT : sendStreamingOAI content none usage death =
      .chunk roleChunk :: .sleepFirst ::
        (((tokenizeStr content).flatMap fun t => [.sleepToken, .chunk (contentChunk t)]) ++
          [.chunk (finalTextChunk usage), .doneLine]) := by
    show OAIAct.chunk roleChunk :: .sleepFirst ::
        oaiTextLoop usage (tokenizeStr content) 0 death = _
    rw [oaiTextLoop_eq usage (tokenizeStr content) death 0 (Nat.zero_le _), Nat.sub_zero,
      if_neg hlen]
  have hfrT : oaiFrames (sendStreamingOAI content none usage death) =
      (.chunk roleChunk :: ((tokenizeStr content).map fun t => OAIAct.chunk (contentChunk t))) ++
        [.chunk (finalTextChunk usage), .doneLine] := by
    rw [hoaiT]
    show List.filter _ _ = _
    rw [List.filter_cons, List.filter_cons, List.filter_append,
      filter_flatMap_pair _ _ _ _ rfl (fun b => rfl)]
    simp [isOAISleep]
  -- OpenAI tool mode, explicit stream and frames
  have hoaiTool : sendStreamingOAI content (some tc) usage death =
      .chunk roleChunk :: .sleepFirst :: .chunk (toolHeaderChunk tc.name) ::
        (((chunkStringS tc.argsJson 8).flatMap fun ch =>
          [.sleepToken, .chunk (toolArgChunk ch)]) ++
          [.chunk finalToolChunk, .doneLine]) := rfl
  have hfrTool : oaiFrames (sendStreamingOAI content (some tc) usage death) =
      (.chunk roleChunk :: .chunk (toolHeaderChunk tc.name) ::
        ((chunkStringS tc.argsJson 8).map fun ch => OAIAct.chunk (toolArgChunk ch))) ++
        [.chunk finalToolChunk, .doneLine] := by
    rw [hoaiTool]
    show List.filter _ _ = _
    rw [List.filter_cons, List.filter_cons, List.filter_cons, List.filter_append,
      filter_flatMap_pair _ _ _ _ rfl (fun b => rfl)]
    simp [isOAISleep]
  -- Gemini text mode, explicit stream and frames
  have hglast : (tokenizeStr content).getLast? =
      some ((tokenizeStr content).getLast hne) := List.getLast?_eq_getLast _ hne
  have hgem : sendStreamingGemini content none usage death =
      .sleepFirst ::
        (((tokenizeStr content).dropLast.flatMap fun t =>
          [.sleepToken, .frame (gemTextFrame t)]) ++
          [.sleepToken, .frame (gemLastTextFrame ((tokenizeStr content).getLast hne) usage)]) := by
    show GemAct.sleepFirst :: gemTextLoop usage (tokenizeStr content) 0 death = _
    rw [gemTextLoop_eq usage (tokenizeStr content) death 0 (Nat.zero_le _), Nat.sub_zero,
      if_neg hlen, hglast]
  have hgfr : gemFrames (sendStreamingGemini content none usage death) =
      ((tokenizeStr content).dropLast.map gemTextFrame) ++
        [gemLastTextFrame ((tokenizeStr content).getLast hne) usage] := by
    rw [hgem]
    show List.filterMap _ _ = _
    rw [List.filterMap_cons, List.filterMap_append,
      filterMap_flatMap_pair (fun a => match a with | GemAct.frame f => some f | _ => none)
        ((tokenizeStr content).dropLast) GemAct.sleepToken
        (fun t => GemAct.frame (gemTextFrame t)) gemTextFrame rfl (fun b => rfl)]
    rfl
  -- Anthropic text mode, explicit stream and events
  have hanth : sendStreamingAnthropic content none inputTokens outputTokens death =
      [AnthAct.message_start inputTokens, .sleepFirst, .content_block_start 0 .text] ++
        (((tokenizeStr content).flatMap fun t =>
          [.sleepToken, .content_block_delta_text 0 t]) ++
          [.content_block_stop 0, .message_delta "end_turn" outputTokens, .message_stop]) := by
    have h := anthTextLoop_eq (tokenizeStr content) death 0 (Nat.zero_le _)
    rw [Nat.sub_zero, if_neg hlen] at h
    simp [sendStreamingAnthropic, h]
  have hanthEv : anthEvents (sendStreamingAnthropic content none inputTokens outputTokens death) =
      (AnthAct.message_start inputTokens :: .content_block_start 0 .text ::
        ((tokenizeStr content).map fun t => AnthAct.content_block_delta_text 0 t)) ++
        [.content_block_stop 0, .message_delta "end_turn" outputTokens, .message_stop] := by
    rw [hanth]
    show List.filter _ _ = _
    rw [List.filter_append, List.filter_append, filter_flatMap_pair _ _ _ _ rfl (fun b => rfl)]
    simp [isAnthSleep]
  refine ⟨?_, ?_, ?_, ?_, ?_, ?_, ?_, ?_, ?_, ?_, ?_, ?_, ?_, ?_⟩
  · rw [hfrT, show (OAIAct.chunk roleChunk ::
        ((tokenizeStr content).map fun t => OAIAct.chunk (contentChunk t))) ++
        [.chunk (finalTextChunk usage), .doneLine] =
        ((OAIAct.chunk roleChunk ::
          ((tokenizeStr content).map fun t => OAIAct.chunk (contentChunk t))) ++
          [.chunk (finalTextChunk usage)]) ++ [.doneLine] by simp,
      List.getLast?_concat]
  · have hz : ((tokenizeStr content).map fun t => OAIAct.chunk (contentChunk t)).countP
        isOAIDoneLine = 0 := by
      rw [List.countP_map]
      exact List.countP_eq_zero.mpr fun a _ => by simp [Function.comp, isOAIDoneLine]
    rw [hfrT, List.countP_append, List.countP_cons, hz]
    simp [isOAIDoneLine]
  · have hz : ((tokenizeStr content).map fun t => OAIAct.chunk (contentChunk t)).countP
        isOAITerminalChunk = 0 := by
      rw [List.countP_map]
      exact List.countP_eq_zero.mpr fun a _ => by simp [Function.comp, isOAITerminalChunk, contentChunk]
    rw [hfrT, List.countP_append, List.countP_cons, hz]
    simp [isOAITerminalChunk, roleChunk, finalTextChunk, emptyDelta]
  · rw [hfrT, show (OAIAct.chunk roleChunk ::
        ((tokenizeStr content).map fun t => OAIAct.chunk (contentChunk t))) ++
        [.chunk (finalTextChunk usage), .doneLine] =
        ((OAIAct.chunk roleChunk ::
          ((tokenizeStr content).map fun t => OAIAct.chunk (contentChunk t))) ++
          [.chunk (finalTextChunk usage)]) ++ [.doneLine] by simp,
      List.dropLast_concat, List.getLast?_concat]
  · rw [hfrTool, show (OAIAct.chunk roleChunk :: .chunk (toolHeaderChunk tc.name) ::
        ((chunkStringS tc.argsJson 8).map fun ch => OAIAct.chunk (toolArgChunk ch))) ++
        [.chunk finalToolChunk, .doneLine] =
        ((OAIAct.chunk roleChunk :: .chunk (toolHeaderChunk tc.name) ::
          ((chunkStringS tc.argsJson 8).map fun ch => OAIAct.chunk (toolArgChunk ch))) ++
          [.chunk finalToolChunk]) ++ [.doneLine] by simp,
      List.getLast?_concat]
  · have hz : ((chunkStringS tc.argsJson 8).map fun ch => OAIAct.chunk (toolArgChunk ch)).countP
        isOAIDoneLine = 0 := by
      rw [List.countP_map]
      exact List.countP_eq_zero.mpr fun a _ => by simp [Function.comp, isOAIDoneLine]
    rw [hfrTool, List.countP_append, List.countP_cons, List.countP_cons, hz]
    simp [isOAIDoneLine]
  · have hz : ((chunkStringS tc.argsJson 8).map fun ch => OAIAct.chunk (toolArgChunk ch)).countP
        isOAITerminalChunk = 0 := by
      rw [List.countP_map]
      exact List.countP_eq_zero.mpr fun a _ => by simp [Function.comp, isOAITerminalChunk, toolArgChunk]
    rw [hfrTool, List.countP_append, List.countP_cons, List.countP_cons, hz]
    simp [isOAITerminalChunk, roleChunk, toolHeaderChunk, finalToolChunk, emptyDelta]
  · rw [hfrTool, show (OAIAct.chunk roleChunk :: .chunk (toolHeaderChunk tc.name) ::
        ((chunkStringS tc.argsJson 8).map fun ch => OAIAct.chunk (toolArgChunk ch))) ++
        [.chunk finalToolChunk, .doneLine] =
        ((OAIAct.chunk roleChunk :: .chunk (toolHeaderChunk tc.name) ::
          ((chunkStringS tc.argsJson 8).map fun ch => OAIAct.chunk (toolArgChunk ch))) ++
          [.chunk finalToolChunk]) ++ [.doneLine] by simp,
      List.dropLast_concat, List.getLast?_concat]
  · rw [hgfr, List.dropLast_concat]
    intro f hf
    obtain ⟨a, _, rfl⟩ := List.mem_map.mp hf
    exact ⟨rfl, rfl⟩
  · exact ⟨(tokenizeStr content).getLast hne, by rw [hgfr, List.getLast?_concat]⟩
  · rfl
  · rw [hanthEv, show (AnthAct.message_start inputTokens :: .content_block_start 0 .text ::
        ((tokenizeStr content).map fun t => AnthAct.content_block_delta_text 0 t)) ++
        [.content_block_stop 0, .message_delta "end_turn" outputTokens, .message_stop] =
        ((AnthAct.message_start inputTokens :: .content_block_start 0 .text ::
          ((tokenizeStr content).map fun t => AnthAct.content_block_delta_text 0 t)) ++
          [.content_block_stop 0, .message_delta "end_turn" outputTokens]) ++
          [.message_stop] by simp,
      List.getLast?_concat]
  · have hz : ((tokenizeStr content).map fun t => AnthAct.content_block_delta_text 0 t).countP
        isAnthMessageStop = 0 := by
      rw [List.countP_map]
      exact List.countP_eq_zero.mpr fun a _ => by simp [Function.comp, isAnthMessageStop]
    rw [hanthEv, List.countP_append, List.countP_cons, List.countP_cons, hz]
    simp [isAnthMessageStop]
  · have hz : ((tokenizeStr content).map fun t => AnthAct.content_block_delta_text 0 t).countP
        isAnthMessageDelta = 0 := by
      rw [List.countP_map]
      exact List.countP_eq_zero.mpr fun a _ => by simp [Function.comp, isAnthMessageDelta]
    rw [hanthEv, List.countP_append, List.countP_cons, List.countP_cons, hz]
    simp [isAnthMessageDelta]

/-- Witness for C8 at content "Hi" and a death of 50 polls. -/
theorem C8_witness :
    tokenizeStr "Hi" ≠ [] ∧
    (oaiFrames (sendStreamingOAI "Hi" none ⟨1, 1, 2⟩ 50)).getLast? = some .doneLine :=
  ⟨by decide,
   (C8_stream_termination "Hi" ⟨"f", "xyz"⟩ ⟨1, 1, 2⟩ 0 0 50 (by decide) (by decide)).1⟩

/-! ### Claim C9 (Anthropic tool-persona streaming) -/

theorem anthToolStream_complete (content : String) (tc : ToolCallVariant)
    (inputTokens outputTokens death : ℕ)
    (hdeath : (tokenizeStr content).length + (chunkStringS tc.argsJson 12).length ≤ death) :
    sendStreamingAnthropic content (some tc) inputTokens outputTokens death =
      [AnthAct.message_start inputTokens, .sleepFirst, .content_block_start 0 .text] ++
        ((((tokenizeStr content).flatMap fun t =>
          [.sleepToken, .content_block_delta_text 0 t]) ++
        ([AnthAct.content_block_stop 0, .content_block_start 1 (.tool_use tc.name)] ++
        (((chunkStringS tc.argsJson 12).flatMap fun ch =>
          [.sleepToken, .content_block_delta_json 1 ch]) ++
        [AnthAct.content_block_stop 1, .message_delta "tool_use" outputTokens,
          .message_stop])))) := by
  have h1 := anthTextLoop_eq (tokenizeStr content) death 0 (Nat.zero_le _)
  rw [Nat.sub_zero, if_neg (by omega)] at h1
  simp only [Nat.zero_add] at h1
  have h2 := anthJsonLoop_eq (chunkStringS tc.argsJson 12) death
    ((tokenizeStr content).length) (by omega)
  rw [if_neg (by omega)] at h2
  simp [sendStreamingAnthropic, h1, h2]

theorem anthToolEvents_complete (content : String) (tc : ToolCallVariant)
    (inputTokens outputTokens death : ℕ)
    (hdeath : (tokenizeStr content).length + (chunkStringS tc.argsJson 12).length ≤ death) :
    anthEvents (sendStreamingAnthropic content (some tc) inputTokens outputTokens death) =
      (AnthAct.message_start inputTokens :: .content_block_start 0 .text ::
        ((tokenizeStr content).map fun t => AnthAct.content_block_delta_text 0 t)) ++
      ([AnthAct.content_block_stop 0, .content_block_start 1 (.tool_use tc.name)] ++
        ((((chunkStringS tc.argsJson 12).map fun ch =>
          AnthAct.content_block_delta_json 1 ch)) ++
        [AnthAct.content_block_stop 1, .message_delta "tool_use" outputTokens,
          .message_stop])) := by
  rw [anthToolStream_complete content tc inputTokens outputTokens death hdeath]
  show List.filter _ _ = _
  simp only [List.filter_append]
  rw [filter_flatMap_pair _ _ _ _ rfl (fun b => rfl),
    filter_flatMap_pair _ _ _ _ rfl (fun b => rfl)]
  simp [isAnthSleep]

/-- Claim C9: an Anthropic-route request with `_persona:"tool_calls"` and
`stream:true` that runs to completion emits an event sequence that begins
with `message_start`, contains exactly one tool_use-typed
`content_block_start` (whose arguments are streamed as
`input_json_delta` fragments after the text block), ends with
`message_stop`, and whose single `message_delta` event carries
`stop_reason = "tool_use"`. -/
theorem C9_anthropic_tool_stream (model : String) (hasTools : Bool)
    (idx inputTokens death : ℕ) (hidx : idx < 3) (hdeath : 25 ≤ death) :
    (anthEvents (anthStreamActs (handleMessages model (some true) (some "tool_calls")
      "balanced" hasTools idx inputTokens death))).head? =
        some (.message_start inputTokens) ∧
    (anthEvents (anthStreamActs (handleMessages model (some true) (some "tool_calls")
      "balanced" hasTools idx inputTokens death))).getLast? = some .message_stop ∧
    (anthEvents (anthStreamActs (handleMessages model (some true) (some "tool_calls")
      "balanced" hasTools idx inputTokens death))).countP isAnthToolUseStart = 1 ∧
    (anthEvents (anthStreamActs (handleMessages model (some true) (some "tool_calls")
      "balanced" hasTools idx inputTokens death))).countP isAnthMessageDelta = 1 ∧
    (anthEvents (anthStreamActs (handleMessages model (some true) (some "tool_calls")
      "balanced" hasTools idx inputTokens death))).countP isAnthMessageStop = 1 ∧
    (∃ out, AnthAct.message_delta "tool_use" out ∈
      anthEvents (anthStreamActs (handleMessages model (some true) (some "tool_calls")
        "balanced" hasTools idx inputTokens death))) := by
  obtain ⟨tc, resp, hsel, hb⟩ : ∃ tc resp,
      getToolCallAt toolCallsPersona idx = some (tc, resp) ∧
      (tokenizeStr resp).length + (chunkStringS tc.argsJson 12).length ≤ 25 := by
    interval_cases idx
    · exact ⟨_, _, rfl, by decide⟩
    · exact ⟨_, _, rfl, by decide⟩
    · exact ⟨_, _, rfl, by decide⟩
  have hsc : selectContent (some "tool_calls") "balanced" hasTools idx = (resp, some tc) := by
    unfold selectContent
    rw [show resolvePersona (some "tool_calls") "balanced" = toolCallsPersona from rfl]
    simp only [show toolCallsPersona.name = "tool_calls" from rfl,
      show toolCallsPersona.toolCalls = some toolCallVariants from rfl,
      Option.isSome_some, Bool.and_true]
    simp [hsel]
  have hhm : handleMessages model (some true) (some "tool_calls") "balanced" hasTools
      idx inputTokens death =
      .stream (sendStreamingAnthropic resp (some tc) inputTokens (estimateTokens resp) death) := by
    unfold handleMessages
    rw [hsc]
    rfl
  have hev := anthToolEvents_complete resp tc inputTokens (estimateTokens resp) death (by omega)
  rw [hhm]
  simp only [anthStreamActs]
  rw [hev]
  refine ⟨rfl, ?_, ?_, ?_, ?_, ?_⟩
  · rw [show (AnthAct.message_start inputTokens :: .content_block_start 0 .text ::
        ((tokenizeStr resp).map fun t => AnthAct.content_block_delta_text 0 t)) ++
      ([AnthAct.content_block_stop 0, .content_block_start 1 (.tool_use tc.name)] ++
        ((((chunkStringS tc.argsJson 12).map fun ch =>
          AnthAct.content_block_delta_json 1 ch)) ++
        [AnthAct.content_block_stop 1, .message_delta "tool_use" (estimateTokens resp),
          .message_stop])) =
      ((AnthAct.message_start inputTokens :: .content_block_start 0 .text ::
        ((tokenizeStr resp).map fun t => AnthAct.content_block_delta_text 0 t)) ++
      ([AnthAct.content_block_stop 0, .content_block_start 1 (.tool_use tc.name)] ++
        ((((chunkStringS tc.argsJson 12).map fun ch =>
          AnthAct.content_block_delta_json 1 ch)) ++
        [AnthAct.content_block_stop 1, .message_delta "tool_use" (estimateTokens resp)]))) ++
        [AnthAct.message_stop] by simp, List.getLast?_concat]
  · have hz1 : ((tokenizeStr resp).map fun t =>
        AnthAct.content_block_delta_text 0 t).countP isAnthToolUseStart = 0 := by
      rw [List.countP_map]
      exact List.countP_eq_zero.mpr fun a _ => by simp [Function.comp, isAnthToolUseStart]
    have hz2 : ((chunkStringS tc.argsJson 12).map fun ch =>
        AnthAct.content_block_delta_json 1 ch).countP isAnthToolUseStart = 0 := by
      rw [List.countP_map]
      exact List.countP_eq_zero.mpr fun a _ => by simp [Function.comp, isAnthToolUseStart]
    simp [List.countP_append, List.countP_cons, hz1, hz2, isAnthToolUseStart]
  · have hz1 : ((tokenizeStr resp).map fun t =>
        AnthAct.content_block_delta_text 0 t).countP isAnthMessageDelta = 0 := by
      rw [List.countP_map]
      exact List.countP_eq_zero.mpr fun a _ => by simp [Function.comp, isAnthMessageDelta]
    have hz2 : ((chunkStringS tc.argsJson 12).map fun ch =>
        AnthAct.content_block_delta_json 1 ch).countP isAnthMessageDelta = 0 := by
      rw [List.countP_map]
      exact List.countP_eq_zero.mpr fun a _ => by simp [Function.comp, isAnthMessageDelta]
    simp [List.countP_append, List.countP_cons, hz1, hz2, isAnthMessageDelta]
  · have hz1 : ((tokenizeStr resp).map fun t =>
        AnthAct.content_block_delta_text 0 t).countP isAnthMessageStop = 0 := by
      rw [List.countP_map]
      exact List.countP_eq_zero.mpr fun a _ => by simp [Function.comp, isAnthMessageStop]
    have hz2 : ((chunkStringS tc.argsJson 12).map fun ch =>
        AnthAct.content_block_delta_json 1 ch).countP isAnthMessageStop = 0 := by
      rw [List.countP_map]
      exact List.countP_eq_zero.mpr fun a _ => by simp [Function.comp, isAnthMessageStop]
    simp [List.countP_append, List.countP_cons, hz1, hz2, isAnthMessageStop]
  · exact ⟨estimateTokens resp, by simp⟩

/-- Witness for C9 at selection index 1 and death 30. -/
theorem C9_witness :
    (0 : ℕ) < 3 ∧
    (anthEvents (anthStreamActs (handleMessages "claude-sonnet-4-20250514" (some true)
      (some "tool_calls") "balanced" false 0 9 30))).head? = some (.message_start 9) :=
  ⟨by decide,
   (C9_anthropic_tool_stream "claude-sonnet-4-20250514" false 0 9 30 (by decide)
     (by decide)).1⟩

/-! ### Claim C1 (error-prone sentinel detection), evaluated on the code -/

/-- Claim C1 evaluated at the failing input: a request with
`_persona:"error_prone"` whose content selection picks variant 0
(`__ERROR__:rate_limit`, which does carry the sentinel marker) is NOT
translated into a FaultOutcome by the server: with chaos disabled the
server routes straight to the provider (the source comment `Handle
__ERROR__ persona responses` precedes a plain `routeToProvider` call and
no code anywhere inspects the sentinel), so the non-streaming response is
a normal 200 chat.completion whose message content is the literal
sentinel string, and the streaming response delivers the sentinel as
ordinary content deltas. -/
theorem C1_sentinel_emitted_literally :
    isFaultOutcome (serverHandleOpenAI ⟨false, 2/100, 5/100, 1/10, 5⟩ 0 "gpt-4" (some false)
      (some "error_prone") "balanced" false 0 7 100) = false ∧
    outcomeDocContent (serverHandleOpenAI ⟨false, 2/100, 5/100, 1/10, 5⟩ 0 "gpt-4" (some false)
      (some "error_prone") "balanced" false 0 7 100) = some "__ERROR__:rate_limit" ∧
    isFaultOutcome (serverHandleOpenAI ⟨false, 2/100, 5/100, 1/10, 5⟩ 0 "gpt-4" (some true)
      (some "error_prone") "balanced" false 0 7 100) = false ∧
    outcomeStreamText (serverHandleOpenAI ⟨false, 2/100, 5/100, 1/10, 5⟩ 0 "gpt-4" (some true)
      (some "error_prone") "balanced" false 0 7 100) = some "__ERROR__:rate_limit" ∧
    getResponseAt (getPersona "error_prone") 0 = "__ERROR__:rate_limit" ∧
    "__ERROR__:rate_limit" = "__ERROR__:" ++ "rate_limit" := by
  decide

/-! ### Claim C6 (persona fallback), corrected for prototype keys -/

theorem getPersonaJS_eq_val (name : String) (h : objectProtoKeys.contains name = false) :
    getPersonaJS name = .val (getPersona name) := by
  have hm : name ∉ objectProtoKeys := by simpa using h
  unfold getPersonaJS jsGetProp getPersona
  cases hl : personasLookup name with
  | none => simp [hl, hm]
  | some p => simp [hl]

/-- Counterexample to claim C6 as stated: the hint "constructor" is not a
catalog name, yet `personas["constructor"]` finds the `Object`
constructor inherited from `Object.prototype` — truthy, so the balanced
fallback never runs — and the request then fails with a TypeError when
`getResponse` reads `.length` of its undefined `responses`. -/
theorem C6_counterexample :
    getPersonaJS "constructor" = .protoMember "constructor" ∧
    getPersonaJS "constructor" ≠ .val balancedPersona ∧
    personasLookup "constructor" = none ∧
    requestSucceeds (getResponseJS (getPersonaJS "constructor") 0) = false := by
  decide

/-- Claim C6 as amended: for every hint that is not an own property name
of `Object.prototype`, persona resolution returns the catalog entry named
by the hint when one exists (carrying the hint as its name) and the
balanced fallback for every other such name, and the request never fails;
a hint that does name an inherited `Object.prototype` member returns that
member instead, and the request then fails with a TypeError when its
responses are read. -/
theorem C6_amended_fallback (hint : String) :
    (objectProtoKeys.contains hint = false →
      (∀ p, personasLookup hint = some p → getPersonaJS hint = .val p ∧ p.name = hint) ∧
      (personasLookup hint = none → getPersonaJS hint = .val balancedPersona) ∧
      (∃ p, getPersonaJS hint = .val p) ∧
      (∀ idx, requestSucceeds (getResponseJS (getPersonaJS hint) idx) = true)) ∧
    (objectProtoKeys.contains hint = true →
      getPersonaJS hint = .protoMember hint ∧
      (∀ idx, requestSucceeds (getResponseJS (getPersonaJS hint) idx) = false)) := by
  constructor
  · intro h
    refine ⟨?_, ?_, ?_, ?_⟩
    · intro p hp
      constructor
      · unfold getPersonaJS jsGetProp
        rw [hp]
      · unfold personasLookup at hp
        split_ifs at hp <;> simp_all <;> rw [← hp] <;> rfl
    · intro hn
      have hm : hint ∉ objectProtoKeys := by simpa using h
      unfold getPersonaJS jsGetProp
      simp [hn, hm]
    · cases hl : personasLookup hint with
      | none =>
        have hm : hint ∉ objectProtoKeys := by simpa using h
        exact ⟨balancedPersona, by unfold getPersonaJS jsGetProp; simp [hl, hm]⟩
      | some p => exact ⟨p, by unfold getPersonaJS jsGetProp; rw [hl]⟩
    · intro idx
      cases hl : personasLookup hint with
      | none =>
        have hm : hint ∉ objectProtoKeys := by simpa using h
        have hv : getPersonaJS hint = .val balancedPersona := by
          unfold getPersonaJS jsGetProp
          simp [hl, hm]
        rw [hv]
        rfl
      | some p =>
        have hv : getPersonaJS hint = .val p := by
          unfold getPersonaJS jsGetProp
          rw [hl]
        rw [hv]
        rfl
  · intro h
    have hnone : personasLookup hint = none := by
      unfold personasLookup
      split_ifs <;> first | rfl | (exact absurd h (by subst_vars; decide))
    have hjs : getPersonaJS hint = .protoMember hint := by
      have hm : hint ∈ objectProtoKeys := by simpa using h
      unfold getPersonaJS jsGetProp
      simp [hnone, hm]
    exact ⟨hjs, fun idx => by rw [hjs]; rfl⟩

/-- Witness for C6 as amended: a catalog hint and an ordinary unknown
hint, both away from the prototype keys. -/
theorem C6_amended_witness :
    objectProtoKeys.contains "error_prone" = false ∧
    getPersonaJS "error_prone" = .val errorPronePersona ∧
    getPersonaJS "gpt-5" = .val balancedPersona :=
  ⟨by decide,
   (((C6_amended_fallback "error_prone").1 (by decide)).1 errorPronePersona rfl).1,
   ((C6_amended_fallback "gpt-5").1 (by decide)).2.1 rfl⟩

/-! ### Claim C3 (fault payload fallback chain), corrected for prototype
keys -/

theorem chaosFallbackJS_known (p : String) (hk : knownProvider p = true) :
    ∃ r, errorsTable "server_error" p = some r ∧ chaosFallbackJS p = .payload r := by
  unfold knownProvider at hk
  rcases (by simpa using hk : (p = "openai" ∨ p = "anthropic") ∨ p = "gemini") with
    (h | h) | h <;> subst h <;> exact ⟨_, rfl, rfl⟩

theorem chaosFallbackJS_unknown (p : String) (hk : knownProvider p = false)
    (hp : objectProtoKeys.contains p = false) :
    chaosFallbackJS p = .payload openaiServerErrorPayload := by
  unfold knownProvider at hk
  have hun : (¬p = "openai" ∧ ¬p = "anthropic") ∧ ¬p = "gemini" := by simpa using hk
  have hnone : errorsTable "server_error" p = none := by
    unfold errorsTable
    split_ifs <;> simp_all
  unfold chaosFallbackJS
  rw [hnone, if_neg (by simpa using hp)]

theorem errorsTable_some_kind (t p : String) (r : FaultPayload)
    (h : errorsTable t p = some r) : chaosKinds.contains t = true := by
  unfold errorsTable at h
  split_ifs at h <;> first | (subst_vars; decide) | (simp at h)

/-- Counterexample to claim C3 as stated: "toString" is an unknown
provider, yet `errors.rate_limit["toString"]` finds the inherited
`Object.prototype.toString` function — truthy, so the `||` chain stops —
and the caller gets that function instead of the promised OpenAI-shaped
generic server-error payload. -/
theorem C3_counterexample :
    getChaosResponseJS "rate_limit" "toString" = .protoMember "toString" ∧
    knownProvider "toString" = false ∧
    getChaosResponseJS "rate_limit" "toString" ≠ .payload openaiServerErrorPayload := by
  decide

/-- Claim C3 as amended: for every (kind, provider) pair in which neither
string is an own property name of `Object.prototype`, the fallback chain
returns a payload without throwing: a defined pair yields its
hand-authored payload, an undefined pair for a known provider yields the
generic server-error payload of that provider, and an unknown provider
yields the OpenAI-shaped generic server-error payload. -/
theorem C3_amended_fallback (t p : String)
    (ht : objectProtoKeys.contains t = false)
    (hp : objectProtoKeys.contains p = false) :
    (∀ r, errorsTable t p = some r → getChaosResponseJS t p = .payload r) ∧
    (knownProvider p = true → errorsTable t p = none →
      ∃ r, errorsTable "server_error" p = some r ∧ getChaosResponseJS t p = .payload r) ∧
    (knownProvider p = false → getChaosResponseJS t p = .payload openaiServerErrorPayload) := by
  have hfall : errorsTable t p = none → getChaosResponseJS t p = chaosFallbackJS p := by
    intro hnone
    unfold getChaosResponseJS
    have hpm : p ∉ objectProtoKeys := by simpa using hp
    by_cases hk : chaosKinds.contains t = true
    · rw [if_pos hk]
      simp [hnone, hpm]
    · rw [if_neg hk, if_neg (by simpa using ht)]
  refine ⟨?_, ?_, ?_⟩
  · intro r hr
    have hk : chaosKinds.contains t = true := errorsTable_some_kind t p r hr
    unfold getChaosResponseJS
    rw [if_pos hk, hr]
  · intro hkp hnone
    obtain ⟨r, hr, hf⟩ := chaosFallbackJS_known p hkp
    exact ⟨r, hr, (hfall hnone).trans hf⟩
  · intro hkp
    have hun : (¬p = "openai" ∧ ¬p = "anthropic") ∧ ¬p = "gemini" := by
      unfold knownProvider at hkp
      simpa using hkp
    have hnone : errorsTable t p = none := by
      unfold errorsTable
      split_ifs <;> simp_all
    rw [hfall hnone, chaosFallbackJS_unknown p hkp hp]

/-- Witness for C3 as amended: a defined pair, and an unknown ordinary
provider falling through to the OpenAI generic payload. -/
theorem C3_amended_witness :
    objectProtoKeys.contains "context_length" = false ∧
    objectProtoKeys.contains "anthropic" = false ∧
    getChaosResponseJS "context_length" "anthropic" =
      .payload ⟨400, .anthropicErr "invalid_request_error", []⟩ ∧
    getChaosResponseJS "rate_limit" "acme" = .payload openaiServerErrorPayload :=
  ⟨by decide, by decide,
   (C3_amended_fallback "context_length" "anthropic" (by decide) (by decide)).1 _ rfl,
   (C3_amended_fallback "rate_limit" "acme" (by decide) (by decide)).2.2 rfl⟩

/-! ### Claim C10 (non-streaming responses wait for no delay), corrected
for prototype keys -/

theorem resolvePersonaJS_eq_val (personaHint : Option String) (defaultPersona : String)
    (hd : objectProtoKeys.contains defaultPersona = false)
    (hh : ∀ s, personaHint = some s → objectProtoKeys.contains s = false) :
    resolvePersonaJS personaHint defaultPersona =
      .val (resolvePersona personaHint defaultPersona) := by
  cases personaHint with
  | none => exact getPersonaJS_eq_val defaultPersona hd
  | some s =>
    by_cases hs : s = ""
    · subst hs
      simp [resolvePersonaJS, resolvePersona, getPersonaJS_eq_val defaultPersona hd]
    · simp [resolvePersonaJS, resolvePersona, hs, getPersonaJS_eq_val s (hh s rfl)]

theorem selectContentJS_eq_ok (personaHint : Option String) (defaultPersona : String)
    (hasTools : Bool) (idx : ℕ)
    (hd : objectProtoKeys.contains defaultPersona = false)
    (hh : ∀ s, personaHint = some s → objectProtoKeys.contains s = false) :
    selectContentJS personaHint defaultPersona hasTools idx =
      .ok (selectContent personaHint defaultPersona hasTools idx) := by
  unfold selectContentJS
  rw [resolvePersonaJS_eq_val personaHint defaultPersona hd hh]
  rfl

theorem handleChatCompletionsJS_eq_ok (model : String) (streamFlag : Option Bool)
    (personaHint : Option String) (defaultPersona : String) (hasTools : Bool)
    (idx promptTokens death : ℕ)
    (hd : objectProtoKeys.contains defaultPersona = false)
    (hh : ∀ s, personaHint = some s → objectProtoKeys.contains s = false) :
    handleChatCompletionsJS model streamFlag personaHint defaultPersona hasTools
      idx promptTokens death =
    .ok (handleChatCompletions model streamFlag personaHint defaultPersona hasTools
      idx promptTokens death) := by
  unfold handleChatCompletionsJS
  rw [selectContentJS_eq_ok personaHint defaultPersona hasTools idx hd hh]
  rfl

theorem handleMessagesJS_eq_ok (model : String) (streamFlag : Option Bool)
    (personaHint : Option String) (defaultPersona : String) (hasTools : Bool)
    (idx inputTokens death : ℕ)
    (hd : objectProtoKeys.contains defaultPersona = false)
    (hh : ∀ s, personaHint = some s → objectProtoKeys.contains s = false) :
    handleMessagesJS model streamFlag personaHint defaultPersona hasTools
      idx inputTokens death =
    .ok (handleMessages model streamFlag personaHint defaultPersona hasTools
      idx inputTokens death) := by
  unfold handleMessagesJS
  rw [selectContentJS_eq_ok personaHint defaultPersona hasTools idx hd hh]
  rfl

theorem handleGenerateContentJS_eq_ok (model : String) (stream : Bool)
    (personaHint : Option String) (defaultPersona : String) (hasTools : Bool)
    (idx promptTokens death : ℕ)
    (hd : objectProtoKeys.contains defaultPersona = false)
    (hh : ∀ s, personaHint = some s → objectProtoKeys.contains s = false) :
    handleGenerateContentJS model stream personaHint defaultPersona hasTools
      idx promptTokens death =
    .ok (handleGenerateContent model stream personaHint defaultPersona hasTools
      idx promptTokens death) := by
  unfold handleGenerateContentJS
  rw [selectContentJS_eq_ok personaHint defaultPersona hasTools idx hd hh]
  rfl

/-- Counterexample to claim C10 as stated: a non-streaming request with
`_persona:"constructor"` on each of the three providers makes the handler
throw during content resolution (the inherited `Object` constructor is
truthy, then reading `.length` of its undefined `responses` TypeErrors),
so no JSON response document is rendered or sent. -/
theorem C10_counterexample :
    isThrown (handleChatCompletionsJS "gpt-4" (some false) (some "constructor") "balanced"
      false 0 7 9) = true ∧
    isThrown (handleMessagesJS "claude-sonnet-4-20250514" (some false) (some "constructor")
      "balanced" false 0 7 9) = true ∧
    isThrown (handleGenerateContentJS "gemini-pro" false (some "constructor") "balanced"
      false 0 7 9) = true := by
  decide

/-- Claim C10 as amended: on all three providers, a request whose stream
flag is absent or false and whose persona hint (and configured default
persona) is not an own property name of `Object.prototype` gets one
complete JSON document with status 200, and the handler awaits no
latency-model delay at all — neither the first-unit nor any per-unit
delay. -/
theorem C10_amended_no_delay (model : String) (streamFlag : Option Bool)
    (personaHint : Option String) (defaultPersona : String) (hasTools : Bool)
    (idx promptTokens inputTokens death : ℕ)
    (h : streamFlag = none ∨ streamFlag = some false)
    (hd : objectProtoKeys.contains defaultPersona = false)
    (hh : ∀ s, personaHint = some s → objectProtoKeys.contains s = false) :
    (∃ doc, handleChatCompletionsJS model streamFlag personaHint defaultPersona hasTools
      idx promptTokens death = .ok (.jsonDoc 200 doc)) ∧
    oaiSleepCountJS (handleChatCompletionsJS model streamFlag personaHint defaultPersona
      hasTools idx promptTokens death) = 0 ∧
    (∃ doc, handleMessagesJS model streamFlag personaHint defaultPersona hasTools
      idx inputTokens death = .ok (.jsonDoc 200 doc)) ∧
    anthSleepCountJS (handleMessagesJS model streamFlag personaHint defaultPersona hasTools
      idx inputTokens death) = 0 ∧
    (∃ doc, handleGenerateContentJS model false personaHint defaultPersona hasTools
      idx promptTokens death = .ok (.jsonDoc 200 doc)) ∧
    gemSleepCountJS (handleGenerateContentJS model false personaHint defaultPersona hasTools
      idx promptTokens death) = 0 := by
  have e1 := handleChatCompletionsJS_eq_ok model streamFlag personaHint defaultPersona
    hasTools idx promptTokens death hd hh
  have e2 := handleMessagesJS_eq_ok model streamFlag personaHint defaultPersona hasTools
    idx inputTokens death hd hh
  have e3 := handleGenerateContentJS_eq_ok model false personaHint defaultPersona hasTools
    idx promptTokens death hd hh
  rw [e1, e2, e3]
  rcases h with rfl | rfl <;>
    exact ⟨⟨_, rfl⟩, rfl, ⟨_, rfl⟩, rfl, ⟨_, rfl⟩, rfl⟩

/-- Witness for C10 as amended, with the stream flag explicitly false and
an ordinary catalog hint. -/
theorem C10_amended_witness :
    ((some false : Option Bool) = none ∨ (some false : Option Bool) = some false) ∧
    objectProtoKeys.contains "balanced" = false ∧
    oaiSleepCountJS (handleChatCompletionsJS "gpt-4" (some false) (some "terse") "balanced"
      false 0 5 9) = 0 :=
  ⟨Or.inr rfl, by decide,
   (C10_amended_no_delay "gpt-4" (some false) (some "terse") "balanced" false 0 5 5 9
     (Or.inr rfl) (by decide)
     (by intro s hs; injection hs with h2; subst h2; decide)).2.1⟩

end NullModel
